import Mathlib

set_option maxRecDepth 100000
set_option linter.unusedVariables false

/-!
Verification of the LanguageFlow repository against its natural-language
specification.  The definitions below are shallow embeddings of the Python
source files under `src/`; each definition carries a comment naming the file
and function it embeds.  Machine integers are modelled as `Nat` with explicit
reduction modulo `2 ^ 32` where the source relies on 32-bit wraparound
(inside MD5/SHA-256, which the source reaches through `hashlib`).
-/

/-! ## Byte and 32-bit word helpers -/

/-- Reduce modulo `2 ^ 32`. -/
def m32 (x : Nat) : Nat := x % 4294967296

/-- 32-bit left rotation (input assumed `< 2 ^ 32`). -/
def rotl32 (x n : Nat) : Nat := m32 ((x <<< n) ||| (x >>> (32 - n)))

/-- 32-bit right rotation (input assumed `< 2 ^ 32`). -/
def rotr32 (x n : Nat) : Nat := m32 ((x >>> n) ||| (x <<< (32 - n)))

/-- 32-bit complement (input assumed `< 2 ^ 32`). -/
def not32 (x : Nat) : Nat := 4294967295 ^^^ x

/-- Bytes of a string, assuming ASCII content (UTF-8 agrees with the code
point below 128; every string the claims evaluate is ASCII). -/
def asciiBytes (s : String) : List Nat := s.data.map Char.toNat

/-- The characters Python's `str.strip()` removes (ASCII whitespace). -/
def isPySpace (c : Char) : Bool :=
  c = ' ' || c = '\t' || c = '\n' || c = '\r'
    || c = Char.ofNat 11 || c = Char.ofNat 12

/-- Python `str.strip()` on ASCII text. -/
def pyStrip (s : String) : String :=
  String.mk (((s.data.dropWhile isPySpace).reverse.dropWhile isPySpace).reverse)

/-- ASCII lowercasing of one character, as Python `str.lower()` does on
ASCII input. -/
def lowerChar (c : Char) : Char :=
  if 65 ≤ c.toNat && c.toNat ≤ 90 then Char.ofNat (c.toNat + 32) else c

/-- Python `str.lower()` on ASCII text. -/
def pyLower (s : String) : String := String.mk (s.data.map lowerChar)

/-- Python slicing `s[:n]`: the first `n` characters. -/
def takeChars (n : Nat) (s : String) : String := String.mk (s.data.take n)

/-- Split a byte list into `k` chunks of 64 bytes (`k = length / 64` at every
call site; structural recursion on `k` keeps kernel reduction possible). -/
def chunks64 : Nat → List Nat → List (List Nat)
  | 0, _ => []
  | k + 1, l => l.take 64 :: chunks64 k (l.drop 64)

/-- Little-endian 32-bit words from bytes (length assumed divisible by 4). -/
def wordsLE : List Nat → List Nat
  | b0 :: b1 :: b2 :: b3 :: rest =>
      (b0 + b1 * 256 + b2 * 65536 + b3 * 16777216) :: wordsLE rest
  | _ => []

/-- Big-endian 32-bit words from bytes (length assumed divisible by 4). -/
def wordsBE : List Nat → List Nat
  | b0 :: b1 :: b2 :: b3 :: rest =>
      (b3 + b2 * 256 + b1 * 65536 + b0 * 16777216) :: wordsBE rest
  | _ => []

/-- Little-endian byte expansion of a 64-bit value. -/
def bytesLE64 (n : Nat) : List Nat :=
  [n % 256, n / 256 % 256, n / 65536 % 256, n / 16777216 % 256,
   n / 4294967296 % 256, n / 1099511627776 % 256,
   n / 281474976710656 % 256, n / 72057594037927936 % 256]

/-- Big-endian byte expansion of a 64-bit value. -/
def bytesBE64 (n : Nat) : List Nat := (bytesLE64 n).reverse

/-- Little-endian byte expansion of a 32-bit word. -/
def bytesLE32 (n : Nat) : List Nat :=
  [n % 256, n / 256 % 256, n / 65536 % 256, n / 16777216 % 256]

/-- Big-endian byte expansion of a 32-bit word. -/
def bytesBE32 (n : Nat) : List Nat := (bytesLE32 n).reverse

/-- Lowercase hex digit. -/
def hexDigit (n : Nat) : Char :=
  if n < 10 then Char.ofNat (48 + n) else Char.ofNat (87 + n)

/-- Lowercase hex rendering of a byte list. -/
def hexOfBytes (bs : List Nat) : String :=
  String.mk (bs.flatMap fun b => [hexDigit (b / 16), hexDigit (b % 16)])

/-! ## MD5 (RFC 1321), as computed by `hashlib.md5` in
`src/server/cos_service.py`.  All arithmetic is `Nat` reduced mod `2 ^ 32`. -/

/-- MD5 per-step left-rotation amounts. -/
def md5S : List Nat :=
  [7, 12, 17, 22, 7, 12, 17, 22, 7, 12, 17, 22, 7, 12, 17, 22,
   5, 9, 14, 20, 5, 9, 14, 20, 5, 9, 14, 20, 5, 9, 14, 20,
   4, 11, 16, 23, 4, 11, 16, 23, 4, 11, 16, 23, 4, 11, 16, 23,
   6, 10, 15, 21, 6, 10, 15, 21, 6, 10, 15, 21, 6, 10, 15, 21]

/-- MD5 sine-derived additive constants. -/
def md5K : List Nat :=
  [3614090360, 3905402710, 606105819, 3250441966,
   4118548399, 1200080426, 2821735955, 4249261313,
   1770035416, 2336552879, 4294925233, 2304563134,
   1804603682, 4254626195, 2792965006, 1236535329,
   4129170786, 3225465664, 643717713, 3921069994,
   3593408605, 38016083, 3634488961, 3889429448,
   568446438, 3275163606, 4107603335, 1163531501,
   2850285829, 4243563512, 1735328473, 2368359562,
   4294588738, 2272392833, 1839030562, 4259657740,
   2763975236, 1272893353, 4139469664, 3200236656,
   681279174, 3936430074, 3572445317, 76029189,
   3654602809, 3873151461, 530742520, 3299628645,
   4096336452, 1126891415, 2878612391, 4237533241,
   1700485571, 2399980690, 4293915773, 2240044497,
   1873313359, 4264355552, 2734768916, 1309151649,
   4149444226, 3174756917, 718787259, 3951481745]

/-- One MD5 step on the state `(a, b, c, d)` for step index `i` over message
words `M`. -/
def md5Step (M : List Nat) (st : Nat × Nat × Nat × Nat) (i : Nat) :
    Nat × Nat × Nat × Nat :=
  let a := st.1; let b := st.2.1; let c := st.2.2.1; let d := st.2.2.2
  let f :=
    if i < 16 then (b &&& c) ||| (not32 b &&& d)
    else if i < 32 then (d &&& b) ||| (not32 d &&& c)
    else if i < 48 then b ^^^ c ^^^ d
    else c ^^^ (b ||| not32 d)
  let g :=
    if i < 16 then i
    else if i < 32 then (5 * i + 1) % 16
    else if i < 48 then (3 * i + 5) % 16
    else (7 * i) % 16
  let tmp := m32 (a + f + (md5K.getD i 0) + (M.getD g 0))
  let nb := m32 (b + rotl32 tmp (md5S.getD i 0))
  (d, nb, b, c)

/-- MD5 compression of one 64-byte block into the running digest state. -/
def md5Block (st : Nat × Nat × Nat × Nat) (block : List Nat) :
    Nat × Nat × Nat × Nat :=
  let M := wordsLE block
  let r := (List.range 64).foldl (md5Step M) st
  (m32 (st.1 + r.1), m32 (st.2.1 + r.2.1),
   m32 (st.2.2.1 + r.2.2.1), m32 (st.2.2.2 + r.2.2.2))

/-- MD5 padding: `0x80`, zeros to 56 mod 64, 64-bit little-endian bit length. -/
def md5Pad (msg : List Nat) : List Nat :=
  let padLen := (55 + 64 - msg.length % 64) % 64 + 1
  msg ++ (128 :: List.replicate (padLen - 1) 0)
      ++ bytesLE64 (msg.length * 8 % 18446744073709551616)

/-- MD5 digest bytes of a byte list. -/
def md5Bytes (msg : List Nat) : List Nat :=
  let init : Nat × Nat × Nat × Nat :=
    (1732584193, 4023233417, 2562383102, 271733878)
  let padded := md5Pad msg
  let fin := (chunks64 (padded.length / 64) padded).foldl md5Block init
  bytesLE32 fin.1 ++ bytesLE32 fin.2.1 ++ bytesLE32 fin.2.2.1 ++ bytesLE32 fin.2.2.2

/-- Lowercase hex MD5 of an (ASCII) string: `hashlib.md5(s).hexdigest()`. -/
def md5Hex (s : String) : String := hexOfBytes (md5Bytes (asciiBytes s))

/-! ## SHA-256 (FIPS 180-4), as computed by `hashlib.sha256` in
`src/local/processor.py`, `src/local/voa_processor.py` and
`src/server/podcast_service/database.py`. -/

/-- SHA-256 round constants. -/
def sha256K : List Nat :=
  [1116352408, 1899447441, 3049323471, 3921009573,
   961987163, 1508970993, 2453635748, 2870763221,
   3624381080, 310598401, 607225278, 1426881987,
   1925078388, 2162078206, 2614888103, 3248222580,
   3835390401, 4022224774, 264347078, 604807628,
   770255983, 1249150122, 1555081692, 1996064986,
   2554220882, 2821834349, 2952996808, 3210313671,
   3336571891, 3584528711, 113926993, 338241895,
   666307205, 773529912, 1294757372, 1396182291,
   1695183700, 1986661051, 2177026350, 2456956037,
   2730485921, 2820302411, 3259730800, 3345764771,
   3516065817, 3600352804, 4094571909, 275423344,
   430227734, 506948616, 659060556, 883997877,
   958139571, 1322822218, 1537002063, 1747873779,
   1955562222, 2024104815, 2227730452, 2361852424,
   2428436474, 2756734187, 3204031479, 3329325298]

/-- SHA-256 message schedule extension from the 16 block words to 64 words. -/
def sha256Schedule (ws : List Nat) : Nat → List Nat
  | 0 => ws
  | n + 1 =>
      let prev := sha256Schedule ws n
      let i := 16 + n
      let w15 := prev.getD (i - 15) 0
      let w2 := prev.getD (i - 2) 0
      let s0 := rotr32 w15 7 ^^^ rotr32 w15 18 ^^^ (w15 >>> 3)
      let s1 := rotr32 w2 17 ^^^ rotr32 w2 19 ^^^ (w2 >>> 10)
      prev ++ [m32 (prev.getD (i - 16) 0 + s0 + prev.getD (i - 7) 0 + s1)]

/-- One SHA-256 round on the eight-word working state. -/
def sha256Round (W : List Nat) (st : List Nat) (i : Nat) : List Nat :=
  match st with
  | [a, b, c, d, e, f, g, h] =>
      let S1 := rotr32 e 6 ^^^ rotr32 e 11 ^^^ rotr32 e 25
      let ch := (e &&& f) ^^^ (not32 e &&& g)
      let t1 := m32 (h + S1 + ch + sha256K.getD i 0 + W.getD i 0)
      let S0 := rotr32 a 2 ^^^ rotr32 a 13 ^^^ rotr32 a 22
      let mj := (a &&& b) ^^^ (a &&& c) ^^^ (b &&& c)
      let t2 := m32 (S0 + mj)
      [m32 (t1 + t2), a, b, c, m32 (d + t1), e, f, g]
  | other => other

/-- SHA-256 compression of one 64-byte block. -/
def sha256Block (st : List Nat) (block : List Nat) : List Nat :=
  let W := sha256Schedule (wordsBE block) 48
  let r := (List.range 64).foldl (sha256Round W) st
  (st.zip r).map fun p => m32 (p.1 + p.2)

/-- SHA-256 padding: `0x80`, zeros to 56 mod 64, 64-bit big-endian bit length. -/
def sha256Pad (msg : List Nat) : List Nat :=
  let padLen := (55 + 64 - msg.length % 64) % 64 + 1
  msg ++ (128 :: List.replicate (padLen - 1) 0)
      ++ bytesBE64 (msg.length * 8 % 18446744073709551616)

/-- SHA-256 digest bytes of a byte list. -/
def sha256Bytes (msg : List Nat) : List Nat :=
  let init : List Nat :=
    [1779033703, 3144134277, 1013904242, 2773480762,
     1359893119, 2600822924, 528734635, 1541459225]
  let padded := sha256Pad msg
  let fin := (chunks64 (padded.length / 64) padded).foldl sha256Block init
  fin.flatMap bytesBE32

/-- Lowercase hex SHA-256 of an (ASCII) string:
`hashlib.sha256(s.encode()).hexdigest()`. -/
def sha256Hex (s : String) : String := hexOfBytes (sha256Bytes (asciiBytes s))

/-! ## CDN Type-A signed URLs — `COSService.get_cdn_url`
(`src/server/cos_service.py`, lines 32–78).

The source draws `expire_timestamp = int(time.time()) + expires` and a random
alphanumeric `rand`; both are explicit parameters here, exactly the values the
claim quantifies over. -/

/-- `COSService.get_cdn_url`: build the Type-A auth URL.  `uri` is the key
with all leading slashes stripped (`key.lstrip('/')`) and a single slash
prepended; the signature string is `uri-t-rand-uid-key` with `uid = "0"`. -/
def get_cdn_url (cdnDomain cdnAuthKey key : String) (expireTimestamp : Nat)
    (rand : String) : String :=
  let uri := "/" ++ String.mk (key.data.dropWhile fun c => c = '/')
  let uid := "0"
  let signString :=
    uri ++ "-" ++ toString expireTimestamp ++ "-" ++ rand ++ "-" ++ uid
        ++ "-" ++ cdnAuthKey
  let md5hash := md5Hex signString
  cdnDomain ++ uri ++ "?sign=" ++ toString expireTimestamp ++ "-" ++ rand
      ++ "-" ++ uid ++ "-" ++ md5hash

/-! ## Episode / podcast identifiers
`generate_podcast_id` (`src/local/processor.py` lines 9–16, and the identical
copy in `src/local/voa_processor.py` lines 30–39) and
`PodcastDatabase._generate_id` (`src/server/podcast_service/database.py`
lines 51–77).

Python `str.strip()` is modelled by `pyStrip` and `str.lower()` by `pyLower`
(both agree with Python on ASCII input, and every input these claims evaluate
is ASCII).  A `None` optional argument in the source is normalised to `""` by
`(x or "")`, so the model takes plain strings. -/

/-- `generate_podcast_id(company, channel, timestamp, audio_url, title)`:
first 32 hex chars of the SHA-256 of
`strip(lower(company))|strip(lower(channel))|timestamp|strip(audioURL)|strip(lower(title))`. -/
def generate_podcast_id (company channel : String) (timestamp : Int)
    (audioUrl title : String) : String :=
  let normalizedCompany := pyLower (pyStrip company)
  let normalizedChannel := pyLower (pyStrip channel)
  let normalizedTitle := pyLower (pyStrip title)
  let normalizedUrl := pyStrip audioUrl
  let content :=
    normalizedCompany ++ "|" ++ normalizedChannel ++ "|" ++ toString timestamp
      ++ "|" ++ normalizedUrl ++ "|" ++ normalizedTitle
  takeChars 32 (sha256Hex content)

/-- `PodcastDatabase._generate_id` of the catalogue service: the server-side
copy of the same normalisation and hash. -/
def podcastDatabase_generate_id (company channel : String) (timestamp : Int)
    (audioUrl title : String) : String :=
  let normalizedCompany := pyLower (pyStrip company)
  let normalizedChannel := pyLower (pyStrip channel)
  let normalizedTitle := pyLower (pyStrip title)
  let normalizedUrl := pyStrip audioUrl
  let content :=
    normalizedCompany ++ "|" ++ normalizedChannel ++ "|" ++ toString timestamp
      ++ "|" ++ normalizedUrl ++ "|" ++ normalizedTitle
  takeChars 32 (sha256Hex content)

/-- The identifier formula exactly as claim C9 words it: only `audioURL` is
trimmed; `company`, `channel` and `title` are lowercased but NOT trimmed. -/
def claimEpisodeId (company channel : String) (timestamp : Int)
    (audioUrl title : String) : String :=
  takeChars 32 (sha256Hex (pyLower company ++ "|" ++ pyLower channel ++ "|"
      ++ toString timestamp ++ "|" ++ pyStrip audioUrl ++ "|"
      ++ pyLower title))

/-- C7: for every key, expiry timestamp `t`, random string, uid `"0"` and
auth secret, the generated CDN URL is `base + uri + "?sign=" + t + "-" + rand
+ "-" + uid + "-" + md5hash` with `uri` the key stripped of leading slashes
and `"/"` prepended, and `md5hash` the lowercase hex MD5 of
`uri-t-rand-uid-key`; in particular the claim's concrete instance evaluates
to the stated signature. -/
theorem C7_cdn_url_signature :
    (∀ (base K key rand : String) (t : Nat),
      get_cdn_url base K key t rand =
        base ++ ("/" ++ String.mk (key.data.dropWhile fun c => c = '/'))
          ++ "?sign=" ++ toString t ++ "-" ++ rand ++ "-" ++ "0" ++ "-"
          ++ md5Hex (("/" ++ String.mk (key.data.dropWhile fun c => c = '/'))
              ++ "-" ++ toString t ++ "-" ++ rand ++ "-" ++ "0" ++ "-" ++ K))
    ∧ get_cdn_url "https://cdn" "k" "audio/ch/2024-05-01/abc.mp3"
        1714550400 "abc12"
        = "https://cdn/audio/ch/2024-05-01/abc.mp3?sign=1714550400-abc12-0-"
          ++ md5Hex "/audio/ch/2024-05-01/abc.mp3-1714550400-abc12-0-k"
    ∧ md5Hex "/audio/ch/2024-05-01/abc.mp3-1714550400-abc12-0-k"
        = "f4b591509a905bbe403e630d834bd720" :=
  ⟨fun _ _ _ _ _ => rfl, by decide, by decide⟩

/-- C9 counterexample: the claim says `company`, `channel` and `title` are
lowercased but not trimmed; the code trims all three.  With
`company = " A"` the code's identifier differs from the claim's formula, in
both copies of the generator. -/
theorem C9_counterexample :
    generate_podcast_id " A" "ch" 5 "u" "t"
        ≠ claimEpisodeId " A" "ch" 5 "u" "t"
    ∧ podcastDatabase_generate_id " A" "ch" 5 "u" "t"
        ≠ claimEpisodeId " A" "ch" 5 "u" "t" := by
  exact ⟨by decide, by decide⟩

/-- C9 (amended): the episode id equals the first 32 hex chars of SHA-256
over `lower(strip(company))|lower(strip(channel))|timestamp|strip(audioURL)|
lower(strip(title))` — all of company, channel and title are both stripped
and lowercased; the server-side generator agrees with the local one; and on
the concrete counterexample input the id is the hash of the stripped form. -/
theorem C9_podcast_id_formula :
    (∀ (c ch : String) (ts : Int) (u t : String),
      generate_podcast_id c ch ts u t =
        takeChars 32 (sha256Hex (pyLower (pyStrip c) ++ "|"
          ++ pyLower (pyStrip ch) ++ "|" ++ toString ts ++ "|"
          ++ pyStrip u ++ "|" ++ pyLower (pyStrip t))))
    ∧ (∀ (c ch : String) (ts : Int) (u t : String),
      podcastDatabase_generate_id c ch ts u t = generate_podcast_id c ch ts u t)
    ∧ generate_podcast_id " A" "ch" 5 "u" "t"
        = "498c6a086bb14878aff9bedca6b4b88b"
    ∧ generate_podcast_id " A" "ch" 5 "u" "t" = generate_podcast_id "a" "ch" 5 "u" "t" :=
  ⟨fun _ _ _ _ _ => rfl, fun _ _ _ _ _ => rfl, by decide, by decide⟩

/-! ## Translator engine — `BaseModelProvider`
(`src/local/translator/models/base.py`) and `PromptBuilder`
(`src/local/translator/models/prompts.py`).

The abstract provider operation `call_model(prompt) → text` is a function
parameter `call : String → Except String String`; a Python exception raised
by the provider is `Except.error`.  The source's `async` orchestration
(semaphores, `asyncio.gather`) only bounds concurrency — per-segment results
are reassembled by input position — so the embedding is the per-index
sequential function. -/

/-- `PromptBuilder.get_base_principles`. -/
def get_base_principles : String :=
  "【遗忘之律】忘记英文的句法。忘记英文的语序。只记住它要说的事。\n【重生之律】如果你是中国作者，面对中国读者，你会怎么讲这个故事？\n【地道之律】追求地道的表达，而非字面翻译。中文有自己的韵律和节奏感。"

/-- `PromptBuilder.build_simple_prompt`. -/
def build_simple_prompt (text : String) : String :=
  "你是专业的中文母语翻译者。\n\n## 翻译原则\n" ++ get_base_principles
    ++ "\n\n## 翻译规则\n1. 只输出翻译内容，不要添加任何解释或额外说明\n2. 确保翻译流畅自然，符合中文表达习惯\n3. 如果是口语化内容，保持口语化风格\n\n---\n\n【原文】\n"
    ++ text ++ "\n\n请直接输出中文翻译，不要添加任何标记或解释。"

/-- `PromptBuilder.build_reflection_prompt`. -/
def build_reflection_prompt (text initial : String) : String :=
  "你是专业的中文母语翻译者，需要优化以下翻译。\n\n## 优化原则\n【地道之律】追求地道的表达，而非字面翻译。中文有自己的韵律和节奏感。\n【重生之律】如果你是中国作者，面对中国读者，你会怎么讲这个故事？\n【检验标准】让读者感觉\"写得真好\"，而非\"翻译得真好\"。\n\n---\n\n【原文】\n"
    ++ text ++ "\n\n【初步翻译】\n" ++ initial
    ++ "\n\n请评估翻译质量，如果发现可以改进的地方（如：不够地道、有翻译腔、不符合中文表达习惯），请直接输出优化后的翻译。如果翻译已经很好，请直接输出原译文。\n\n只输出最终的中文翻译，不要添加任何评价、解释或标记。"

/-- `PromptBuilder.build_context_prompt`: used by the no-summary sliding
window mode; falls back to the simple prompt when both contexts are empty. -/
def build_context_prompt (text contextBefore contextAfter : String) : String :=
  if contextBefore ≠ "" || contextAfter ≠ "" then
    "你是专业的中文母语翻译者。\n\n## 翻译原则\n" ++ get_base_principles
      ++ "\n【真实之锚】数据一字不改，事实纹丝不动，逻辑完整移植，术语规范标注。\n\n## 翻译规则\n1. 只输出翻译内容，不要添加任何解释或额外说明\n2. 结合上下文理解代词、指代关系\n3. 保持术语翻译的一致性\n4. 确保翻译流畅自然，符合中文表达习惯\n5. 如果是口语化内容，保持口语化风格\n6. 让读者感觉\"写得真好\"，而非\"翻译得真好\"\n\n---\n\n"
      ++ (if contextBefore ≠ "" then "【前文】" ++ contextBefore ++ "\n\n" else "")
      ++ "【当前文本】" ++ text ++ "\n\n"
      ++ (if contextAfter ≠ "" then "【后文】" ++ contextAfter ++ "\n\n" else "")
      ++ "请直接输出【当前文本】的中文翻译，不要翻译上下文部分，不要添加任何标记或解释。"
  else build_simple_prompt text

/-- `PromptBuilder.build_full_context_prompt` (legacy full-text mode). -/
def build_full_context_prompt (text fullText : String) : String :=
  "你是专业的中文母语翻译者。请将以下文本片段翻译成中文。\n\n## 翻译原则\n"
    ++ get_base_principles
    ++ "\n\n## 任务\n1. 阅读完整原文只是为了理解语境和术语\n2. **只翻译\"当前片段\"这一句话**\n3. 结合完整原文的语境，准确理解代词、指代关系\n4. 保持术语翻译的一致性\n\n## 输出要求\n- **只输出当前片段的中文翻译**\n- **不要翻译完整原文**\n- **不要添加任何标记、解释或额外内容**\n- **必须输出翻译结果，不能为空**\n\n---\n\n【完整原文】（仅作背景参考，不要翻译）\n"
    ++ fullText ++ "\n\n---\n\n【当前片段】（只翻译这一句话）\n" ++ text
    ++ "\n\n---\n\n请直接输出【当前片段】的中文翻译："

/-- `PromptBuilder.build_summary_prompt`. -/
def build_summary_prompt (fullText : String) : String :=
  "请阅读以下英文文章，并提供一个简洁的总结（150字以内），包括：\n1. 文章主题和核心内容\n2. 关键人物、地点、事件\n3. 重要的专有名词和术语（保留英文原词）\n\n请用中文输出总结，简明扼要即可。\n\n---\n\n【完整原文】\n"
    ++ fullText ++ "\n\n---\n\n请直接输出总结："

/-- `PromptBuilder.build_sliding_window_prompt`. -/
def build_sliding_window_prompt (text summary contextBefore contextAfter : String) :
    String :=
  "你是专业的中文母语翻译者。\n\n## 翻译原则\n" ++ get_base_principles
    ++ "\n\n## 文章背景\n" ++ summary
    ++ "\n\n## 翻译任务\n请翻译【当前文本】，结合文章背景和上下文，确保：\n1. 只输出【当前文本】的中文翻译\n2. 术语翻译与全文保持一致\n3. 准确理解代词和指代关系\n4. 保持口语化风格（如果是对话）\n5. 不要添加任何标记或解释\n\n---\n"
    ++ (if contextBefore ≠ "" then "\n【前文参考】（不要翻译）\n" ++ contextBefore ++ "\n" else "")
    ++ "\n【当前文本】（只翻译这部分）\n" ++ text ++ "\n"
    ++ (if contextAfter ≠ "" then "\n【后文参考】（不要翻译）\n" ++ contextAfter ++ "\n" else "")
    ++ "\n---\n\n请直接输出【当前文本】的中文翻译："

/-- Python `" ".join(l)`. -/
def joinSpace : List String → String
  | [] => ""
  | [x] => x
  | x :: xs => x ++ " " ++ joinSpace xs

/-- The pre-context slice `texts[max(0, i - W) : i]` joined by spaces, with
the source's `if i > 0 else ''` guard (`base.py` lines 117 and 161). -/
def context_before (texts : List String) (i W : Nat) : String :=
  if i > 0 then joinSpace ((texts.drop (i - W)).take (i - (i - W))) else ""

/-- The post-context slice `texts[i + 1 : min(n, i + W + 1)]` joined by
spaces, with the source's `if i < len(texts) - 1 else ''` guard. -/
def context_after (texts : List String) (i W : Nat) : String :=
  if i < texts.length - 1 then joinSpace ((texts.drop (i + 1)).take W) else ""

/-- `translate_one` from `translate_batch`'s single-shot branch
(`base.py` lines 43–62).  Python compares `len(optimized) > len(initial) *
0.8` with IEEE doubles; for all n below 2 ^ 49 the double `n * 0.8` rounds
to within `0.2` of the rational `4n/5`, and exactly to an integer m when
`5m = 4n`, so the comparison is exactly `5 * len(optimized) > 4 *
len(initial)` on natural numbers. -/
def translate_one (call : String → Except String String) (useReflection : Bool)
    (text : String) : Except String String :=
  if useReflection then
    match call (build_simple_prompt text) with
    | Except.error e => Except.error e
    | Except.ok initial =>
      if text.length < 50 then Except.ok (pyStrip initial)
      else
        match call (build_reflection_prompt text initial) with
        | Except.error _ => Except.ok (pyStrip initial)
        | Except.ok optimized =>
          if optimized ≠ "" && 5 * optimized.length > 4 * initial.length then
            Except.ok (pyStrip optimized)
          else Except.ok (pyStrip initial)
  else call (build_simple_prompt text)

/-- `BaseModelProvider._process_batch_results` (`base.py` lines 195–219):
exceptions and blank results become `""`; other results are stripped. -/
def process_batch_results (results : List (Except String String)) : List String :=
  results.map fun r =>
    match r with
    | Except.error _ => ""
    | Except.ok v => if v ≠ "" && pyStrip v ≠ "" then pyStrip v else ""

/-- `BaseModelProvider._translate_with_summary_and_window`
(`base.py` lines 130–193): one summary call (failure or blank yields the
placeholder), then per-index windowed calls whose failures become `""`. -/
def translate_with_summary_and_window (call : String → Except String String)
    (texts : List String) (fullText : String) (W : Nat) : List String :=
  if texts = [] then []
  else
    let summary0 :=
      match call (build_summary_prompt fullText) with
      | Except.ok s => s
      | Except.error _ => "（无法生成总结，直接翻译）"
    let summary := if summary0 = "" then "（无法生成总结，直接翻译）" else summary0
    (List.range texts.length).map fun i =>
      let txt := texts.getD i ""
      if txt = "" || pyStrip txt = "" then ""
      else
        match call (build_sliding_window_prompt txt summary
            (context_before texts i W) (context_after texts i W)) with
        | Except.ok r => if r ≠ "" && pyStrip r ≠ "" then pyStrip r else ""
        | Except.error _ => ""

/-- The no-summary sliding-window loop of `translate_batch`
(`base.py` lines 106–128), walking the given index list.  A provider
exception propagates — this branch has no try/except. -/
def translate_window_go (call : String → Except String String)
    (texts : List String) (W : Nat) : List Nat → Except String (List String)
  | [] => Except.ok []
  | i :: rest =>
    let text := texts.getD i ""
    if text = "" || pyStrip text = "" then
      match translate_window_go call texts W rest with
      | Except.error e => Except.error e
      | Except.ok tl => Except.ok ("" :: tl)
    else
      match call (build_context_prompt text (context_before texts i W)
          (context_after texts i W)) with
      | Except.error e => Except.error e
      | Except.ok r =>
        match translate_window_go call texts W rest with
        | Except.error e => Except.error e
        | Except.ok tl => Except.ok ((if r = "" then "" else pyStrip r) :: tl)

/-- `BaseModelProvider.translate_batch` (`base.py` lines 33–128).  The
summary+window branch's `except` fallback to the legacy full-context path
(lines 78–104) is unreachable here because the embedded summary+window
function is total, mirroring that in the source all provider failures inside
it are caught per segment. -/
def translate_batch (call : String → Except String String) (texts : List String)
    (sourceLang targetLang : String) (useReflection useContext : Bool)
    (W : Nat) (useFullContext : Bool) : Except String (List String) :=
  if texts = [] then Except.ok []
  else if !useContext || texts.length = 1 then
    Except.ok (process_batch_results (texts.map (translate_one call useReflection)))
  else if useFullContext then
    Except.ok (translate_with_summary_and_window call texts (joinSpace texts) W)
  else
    translate_window_go call texts W (List.range texts.length)

/-- The summary+window mode returns one output per input segment. -/
theorem summary_window_length (call : String → Except String String)
    (ts : List String) (ft : String) (W : Nat) :
    (translate_with_summary_and_window call ts ft W).length = ts.length := by
  unfold translate_with_summary_and_window
  by_cases h : ts = [] <;> simp [h]

/-- The no-summary window loop returns one output per visited index. -/
theorem window_go_length (call : String → Except String String)
    (ts : List String) (W : Nat) :
    ∀ (l : List Nat) (res : List String),
      translate_window_go call ts W l = Except.ok res → res.length = l.length := by
  intro l
  induction l with
  | nil =>
    intro res h
    simp only [translate_window_go] at h
    cases h
    rfl
  | cons i rest ih =>
    intro res h
    simp only [translate_window_go] at h
    split at h
    · cases hgo : translate_window_go call ts W rest with
      | error e => rw [hgo] at h; cases h
      | ok tl =>
        rw [hgo] at h
        cases h
        simpa using ih tl hgo
    · cases hc : call (build_context_prompt (ts.getD i "")
          (context_before ts i W) (context_after ts i W)) with
      | error e => rw [hc] at h; cases h
      | ok r =>
        rw [hc] at h
        cases hgo : translate_window_go call ts W rest with
        | error e => rw [hgo] at h; cases h
        | ok tl =>
          rw [hgo] at h
          cases h
          simpa using ih tl hgo

/-- In the no-summary window loop, a blank source at a visited index yields
`""` at the corresponding output position. -/
theorem window_go_blank (call : String → Except String String)
    (ts : List String) (W : Nat) :
    ∀ (l : List Nat) (res : List String),
      translate_window_go call ts W l = Except.ok res →
      ∀ k, k < l.length → pyStrip (ts.getD (l.getD k 0) "") = "" →
        res.getD k "x" = "" := by
  intro l
  induction l with
  | nil => intro res h k hk; simp at hk
  | cons i rest ih =>
    intro res h k hk hblank
    simp only [translate_window_go] at h
    split at h
    · cases hgo : translate_window_go call ts W rest with
      | error e => rw [hgo] at h; cases h
      | ok tl =>
        rw [hgo] at h
        cases h
        cases k with
        | zero => rfl
        | succ k => exact ih tl hgo k (by simpa using hk) (by simpa using hblank)
    · rename_i hcond
      cases hc : call (build_context_prompt (ts.getD i "")
          (context_before ts i W) (context_after ts i W)) with
      | error e => rw [hc] at h; cases h
      | ok r =>
        rw [hc] at h
        cases hgo : translate_window_go call ts W rest with
        | error e => rw [hgo] at h; cases h
        | ok tl =>
          rw [hgo] at h
          cases h
          cases k with
          | zero => simp at hblank; simp [hblank] at hcond
          | succ k => exact ih tl hgo k (by simpa using hk) (by simpa using hblank)

/-- In the summary+window mode, a blank source yields `""` at its index. -/
theorem summary_window_blank (call : String → Except String String)
    (ts : List String) (ft : String) (W : Nat) (i : Nat) (hi : i < ts.length)
    (hblank : pyStrip (ts.getD i "") = "") :
    (translate_with_summary_and_window call ts ft W).getD i "x" = "" := by
  unfold translate_with_summary_and_window
  have hne : ts ≠ [] := by intro h; rw [h] at hi; simp at hi
  simp only [hne, if_false]
  rw [List.getD_eq_getElem _ _ (by simpa using hi)]
  simp only [List.getElem_map, List.getElem_range]
  rw [if_pos (by
    simp only [List.getD, List.get?_eq_getElem?] at hblank
    simp [hblank])]

/-- With a provider that always raises, the single-shot branch maps every
text to `""`. -/
theorem single_shot_all_fail (call : String → Except String String)
    (err : String) (hfail : ∀ p, call p = Except.error err)
    (ur : Bool) (texts : List String) :
    process_batch_results (texts.map (translate_one call ur)) =
      List.replicate texts.length "" := by
  induction texts with
  | nil => rfl
  | cons t rest ih =>
    simp only [List.map_cons, process_batch_results, List.map] at ih ⊢
    refine congrArg₂ _ ?_ ih
    cases ur <;> simp [translate_one, hfail]

/-- A provider that answers `"X"` to every prompt (for the C3
counterexample). -/
def providerConstX : String → Except String String := fun _ => Except.ok "X"

/-- A provider that raises on every prompt. -/
def providerBoom : String → Except String String := fun _ => Except.error "boom"

/-- C3 counterexample: (i) an empty source string does NOT map to an empty
translation in single-shot mode — the empty string is sent to the provider
and the stripped response comes back, so `[""]` translates to `["X"]`; and
(ii) in the no-summary sliding-window mode a provider failure propagates as
an exception instead of becoming an empty string, so no list of any length
is returned. -/
theorem C3_counterexample :
    translate_batch providerConstX [""] "auto" "zh" false true 2 true
        = Except.ok ["X"]
    ∧ ("X" : String) ≠ ""
    ∧ translate_batch providerBoom ["a", "b"] "auto" "zh" true true 2 false
        = Except.error "boom" :=
  ⟨rfl, by decide, rfl⟩

/-- With a provider that always raises, the summary+window mode still
returns `""` for every segment (the placeholder summary is used and every
per-segment failure is caught). -/
theorem summary_window_all_fail (call : String → Except String String)
    (err : String) (hfail : ∀ p, call p = Except.error err)
    (ts : List String) (ft : String) (W : Nat) :
    translate_with_summary_and_window call ts ft W =
      List.replicate ts.length "" := by
  unfold translate_with_summary_and_window
  by_cases hnil : ts = []
  · simp [hnil]
  · simp only [hnil, if_false, hfail]
    rw [List.eq_replicate_iff]
    refine ⟨by simp, ?_⟩
    intro b hb
    simp only [List.mem_map] at hb
    obtain ⟨i, hi, hbeq⟩ := hb
    rw [← hbeq]
    split <;> rfl

/-- C3 (amended): whenever `translate_batch` returns, the output list has
exactly one translation per input, in input order; a blank source maps to
`""` in the context modes (the summary+window mode, and the no-summary
window mode); and with a provider that always fails, the single-shot and
summary+window modes return `""` everywhere (in the no-summary window mode
the failure propagates instead, and in single-shot mode an empty source is
sent to the provider rather than short-circuited). -/
theorem C3_translate_batch_shape :
    (∀ (call : String → Except String String) (texts : List String)
        (sl tl : String) (ur uc : Bool) (W : Nat) (ufc : Bool)
        (res : List String),
      translate_batch call texts sl tl ur uc W ufc = Except.ok res →
      res.length = texts.length)
    ∧ (∀ (call : String → Except String String) (texts : List String)
        (sl tl : String) (ur : Bool) (W : Nat) (ufc : Bool)
        (res : List String) (i : Nat),
      translate_batch call texts sl tl ur true W ufc = Except.ok res →
      2 ≤ texts.length → i < texts.length →
      pyStrip (texts.getD i "") = "" → res.getD i "x" = "")
    ∧ (∀ (call : String → Except String String) (err : String),
      (∀ p, call p = Except.error err) →
      ∀ (texts : List String) (sl tl : String) (ur : Bool) (W : Nat)
        (ufc : Bool),
        translate_batch call texts sl tl ur false W ufc =
          Except.ok (List.replicate texts.length ""))
    ∧ (∀ (call : String → Except String String) (err : String),
      (∀ p, call p = Except.error err) →
      ∀ (texts : List String) (sl tl : String) (ur : Bool) (W : Nat),
        2 ≤ texts.length →
        translate_batch call texts sl tl ur true W true =
          Except.ok (List.replicate texts.length "")) := by
  refine ⟨?_, ?_, ?_, ?_⟩
  · intro call texts sl tl ur uc W ufc res h
    unfold translate_batch at h
    split at h
    · rename_i hnil; cases h; simp [hnil]
    split at h
    · cases h
      simp [process_batch_results]
    split at h
    · cases h
      exact summary_window_length call texts (joinSpace texts) W
    · have := window_go_length call texts W (List.range texts.length) res h
      simpa using this
  · intro call texts sl tl ur W ufc res i h hlen hi hblank
    unfold translate_batch at h
    split at h
    · rename_i hnil; rw [hnil] at hlen; simp at hlen
    split at h
    · rename_i hcond
      simp only [Bool.not_true, Bool.false_or] at hcond
      have : texts.length = 1 := by simpa using hcond
      omega
    split at h
    · cases h
      exact summary_window_blank call texts (joinSpace texts) W i hi hblank
    · have hr : (List.range texts.length).getD i 0 = i := by
        rw [List.getD_eq_getElem _ _ (by simpa using hi)]
        simp
      have hgo := window_go_blank call texts W (List.range texts.length) res h i
        (by simpa using hi)
      rw [hr] at hgo
      exact hgo hblank
  · intro call err hfail texts sl tl ur W ufc
    unfold translate_batch
    split
    · rename_i hnil; simp [hnil]
    · rw [if_pos (by simp)]
      rw [single_shot_all_fail call err hfail ur texts]
  · intro call err hfail texts sl tl ur W hlen
    have hnil : ¬ texts = [] := by intro h; rw [h] at hlen; simp at hlen
    have hone : ¬ texts.length = 1 := by omega
    unfold translate_batch
    rw [if_neg hnil]
    rw [if_neg (by simp [hone])]
    rw [if_pos rfl]
    rw [summary_window_all_fail call err hfail texts (joinSpace texts) W]

/-- C3 witness: the shape theorem applied at the spec's concrete scenario
`["hi", "", "world"]` (three in, three out, index 1 blank) and at an
always-failing provider. -/
theorem C3_translate_batch_shape_witness :
    ((["X", "", "X"] : List String).length
        = (["hi", "", "world"] : List String).length)
    ∧ ((["X", "", "X"] : List String).getD 1 "x" = "")
    ∧ translate_batch providerBoom ["a"] "auto" "zh" true false 2 true
        = Except.ok (List.replicate (["a"] : List String).length "")
    ∧ translate_batch providerBoom ["a", "b"] "auto" "zh" true true 2 true
        = Except.ok (List.replicate (["a", "b"] : List String).length "") := by
  refine ⟨?_, ?_, ?_, ?_⟩
  · exact C3_translate_batch_shape.1 providerConstX ["hi", "", "world"]
      "auto" "zh" true true 2 true ["X", "", "X"] rfl
  · exact C3_translate_batch_shape.2.1 providerConstX ["hi", "", "world"]
      "auto" "zh" true 2 true ["X", "", "X"] 1 rfl (by decide) (by decide)
      (by decide)
  · exact C3_translate_batch_shape.2.2.1 providerBoom "boom" (fun p => rfl)
      ["a"] "auto" "zh" true 2 true
  · exact C3_translate_batch_shape.2.2.2 providerBoom "boom" (fun p => rfl)
      ["a", "b"] "auto" "zh" true 2 (by decide)

/-! ## C8: the reflection protocol of the single-shot mode. -/

/-- A 50-character source text (at the reflection threshold). -/
def c8text : String := String.mk (List.replicate 50 'a')

/-- Provider for the C8 counterexample: the initial translation has 5
characters and the reflected revision has 4 — exactly 0.8 of the initial. -/
def providerRefl45 : String → Except String String := fun p =>
  if p = build_simple_prompt c8text then Except.ok "abcde" else Except.ok "abcd"

/-- Provider whose revision is long enough to be accepted. -/
def providerReflLong : String → Except String String := fun p =>
  if p = build_simple_prompt c8text then Except.ok "初译"
  else Except.ok "优化后的译文"

/-- Provider whose reflection call raises. -/
def providerReflBoom : String → Except String String := fun p =>
  if p = build_simple_prompt c8text then Except.ok "初译"
  else Except.error "reflect-fail"

/-- C8 counterexample: the claim accepts a revision whose length is at least
`0.8 ×` the initial's; the code requires strictly more.  With `|initial| = 5`
and `|revision| = 4` (so `|revision| = 0.8 · |initial|` exactly, since
`5 · 4 = 4 · 5`), the code keeps the initial translation `"abcde"` instead of
the revision `"abcd"` the claim demands. -/
theorem C8_counterexample :
    translate_one providerRefl45 true c8text = Except.ok "abcde"
    ∧ 5 * ("abcd" : String).length = 4 * ("abcde" : String).length
    ∧ ("abcde" : String) ≠ "abcd" :=
  ⟨rfl, by decide, by decide⟩

/-- C8 (amended): in single-shot mode with reflection enabled, (i) for a
source shorter than 50 characters the result is just the stripped initial
call — the reflection prompt is never consulted; (ii) for a source of at
least 50 characters the revision is accepted iff it is non-empty and
strictly longer than `0.8 ×` the initial translation (`5·|rev| > 4·|init|`);
(iii) a failing reflection call falls back to the stripped initial
translation. -/
theorem C8_reflection_protocol :
    (∀ (call : String → Except String String) (text : String),
      text.length < 50 →
      translate_one call true text = (call (build_simple_prompt text)).map pyStrip)
    ∧ (∀ (call : String → Except String String) (text initial opt : String),
      50 ≤ text.length →
      call (build_simple_prompt text) = Except.ok initial →
      call (build_reflection_prompt text initial) = Except.ok opt →
      translate_one call true text =
        Except.ok (if opt ≠ "" ∧ 5 * opt.length > 4 * initial.length
          then pyStrip opt else pyStrip initial))
    ∧ (∀ (call : String → Except String String) (text initial e : String),
      50 ≤ text.length →
      call (build_simple_prompt text) = Except.ok initial →
      call (build_reflection_prompt text initial) = Except.error e →
      translate_one call true text = Except.ok (pyStrip initial)) := by
  refine ⟨?_, ?_, ?_⟩
  · intro call text hlt
    unfold translate_one
    cases h : call (build_simple_prompt text) with
    | error e => simp [h, Except.map]
    | ok initial => simp [h, hlt, Except.map]
  · intro call text initial opt hge h1 h2
    unfold translate_one
    rw [h1]
    have hnlt : ¬ text.length < 50 := by omega
    simp only [hnlt, if_false, if_true]
    simp only [h2, Bool.and_eq_true, decide_eq_true_eq, ne_eq, gt_iff_lt]
    by_cases hc : ¬ opt = "" ∧ 4 * initial.length < 5 * opt.length
    · simp [hc.1, hc.2]
    · rw [if_neg hc, if_neg hc]
  · intro call text initial e hge h1 h2
    unfold translate_one
    rw [h1]
    have hnlt : ¬ text.length < 50 := by omega
    simp only [hnlt, if_false, if_true]
    simp only [h2]

/-- C8 witness: the protocol theorem applied to concrete providers — a long
revision is accepted, a failing reflection falls back to the initial, and a
short source never reaches the reflection prompt. -/
theorem C8_reflection_protocol_witness :
    translate_one providerReflLong true c8text = Except.ok "优化后的译文"
    ∧ translate_one providerReflBoom true c8text = Except.ok "初译"
    ∧ translate_one providerReflLong true "hi"
        = (providerReflLong (build_simple_prompt "hi")).map pyStrip := by
  refine ⟨?_, ?_, ?_⟩
  · have h := C8_reflection_protocol.2.1 providerReflLong c8text "初译"
      "优化后的译文" (by decide) rfl rfl
    simpa using h
  · exact C8_reflection_protocol.2.2 providerReflBoom c8text "初译"
      "reflect-fail" (by decide) rfl rfl
  · exact C8_reflection_protocol.1 providerReflLong "hi" (by decide)

/-! ## Entitlement store — data model
(`src/server/models/auth_models.py`, table definitions lines 26–111).

Rows carry the columns the handlers read or write.  Timestamps are
milliseconds (`Int`); the source round-trips them through `datetime` via
`AppleReceiptValidator.timestamp_to_datetime` and `_to_timestamp_ms`, which
compose to the identity on millisecond values, so the model keeps the
integers.  `AuthDatabase.record_purchase_event` is called by
`src/server/api/payment_api.py` (lines 263 and 590) but its definition is
not under `src/`; it is modelled from the spec below. -/

/-- A `users` row. -/
structure UserRow where
  deviceUuid : String
  originalTransactionId : Option String
  isVip : Bool
  vipExpireMs : Option Int
deriving DecidableEq

/-- A `purchase_records` row. -/
structure PurchaseRecordRow where
  originalTransactionId : String
  productId : String
  purchaseDateMs : Int
  expireDateMs : Option Int
  status : String
  environment : String
  deviceCount : Nat
deriving DecidableEq

/-- A `device_bindings` row; `(originalTransactionId, deviceUuid)` is
unique. -/
structure BindingRow where
  originalTransactionId : String
  deviceUuid : String
  deviceName : Option String
  bindTimeMs : Int
  lastActiveMs : Int
deriving DecidableEq

/-- A `transaction_logs` row. -/
structure TransactionLogRow where
  originalTransactionId : String
  transactionId : String
  jwsToken : Option String
  eventType : String
  deviceUuid : String
deriving DecidableEq

/-- A `notification_logs` row; `notificationUuid` is unique. -/
structure NotificationLogRow where
  notificationUuid : String
  notificationType : Option String
  subtype : Option String
  originalTransactionId : Option String
  transactionId : Option String
  environment : Option String
  signedPayload : String
deriving DecidableEq

/-- Modelled from the spec: `AuthDatabase.record_purchase_event` is missing
from `src/` (only its callers exist); §4.3.3 step 11 records a PurchaseEvent
row keyed by `transactionID` "for analytics/dedup", so the row carries the
four arguments its callers pass. -/
structure PurchaseEventRow where
  transactionId : String
  originalTransactionId : String
  eventType : String
  deviceUuid : Option String
deriving DecidableEq

/-- The persistent state owned by the entitlement store: one list per table,
in insertion (rowid) order. -/
structure DbState where
  users : List UserRow
  purchaseRecords : List PurchaseRecordRow
  deviceBindings : List BindingRow
  transactionLogs : List TransactionLogRow
  notificationLogs : List NotificationLogRow
  purchaseEvents : List PurchaseEventRow
deriving DecidableEq

/-- Python falsiness of an optional string (`None` and `""` are falsy). -/
def optFalsy (o : Option String) : Bool := o = none || o = some ""

/-- Python `a or b` on optional strings (empty counts as missing). -/
def orStr (a b : Option String) : Option String := if optFalsy a then b else a

/-- `AuthDatabase.get_purchase_record`: the unique row for the id, if any. -/
def get_purchase_record (s : DbState) (otid : String) : Option PurchaseRecordRow :=
  s.purchaseRecords.find? fun r => r.originalTransactionId = otid

/-- `AuthDatabase.get_user_by_uuid`. -/
def get_user_by_uuid (s : DbState) (deviceUuid : String) : Option UserRow :=
  s.users.find? fun u => u.deviceUuid = deviceUuid

/-- `AuthDatabase.create_purchase_record` (lines 189–210): plain INSERT with
`device_count = 0`.  The Python method has no `return`, so callers always
see `None`; both handlers therefore refetch the row afterwards. -/
def create_purchase_record (s : DbState) (otid productId : String)
    (purchaseDateMs : Int) (expireDateMs : Option Int) (status environment : String) :
    DbState :=
  { s with purchaseRecords := s.purchaseRecords ++
      [{ originalTransactionId := otid, productId := productId,
         purchaseDateMs := purchaseDateMs, expireDateMs := expireDateMs,
         status := status, environment := environment, deviceCount := 0 }] }

/-- `AuthDatabase.update_purchase_record` (lines 212–223), also reached as
`update_purchase_record_expiry`: `SET expire_date = ?, status = 'active'`. -/
def update_purchase_record (s : DbState) (otid : String) (expireDateMs : Option Int) :
    DbState :=
  { s with purchaseRecords := s.purchaseRecords.map fun r =>
      if r.originalTransactionId = otid then
        { r with expireDateMs := expireDateMs, status := "active" }
      else r }

/-- The per-row effect of `AuthDatabase.update_purchase_record_status`
(lines 229–257): always sets `status`; sets `expire_date` and `environment`
only when the corresponding argument is not `None`. -/
def statusRowUpdate (otid status : String) (expireDateMs : Option Int)
    (environment : Option String) (r : PurchaseRecordRow) : PurchaseRecordRow :=
  if r.originalTransactionId = otid then
    { r with
      status := status
      expireDateMs := (match expireDateMs with
        | some v => some v
        | none => r.expireDateMs)
      environment := (match environment with
        | some e => e
        | none => r.environment) }
  else r

/-- `AuthDatabase.update_purchase_record_status`. -/
def update_purchase_record_status (s : DbState) (otid status : String)
    (expireDateMs : Option Int) (environment : Option String) : DbState :=
  { s with purchaseRecords :=
      s.purchaseRecords.map (statusRowUpdate otid status expireDateMs environment) }

/-- The per-row effect of
`AuthDatabase.update_users_vip_status_by_original_transaction_id`
(lines 156–171). -/
def vipRowUpdate (otid : String) (isVip : Bool) (vipExpireMs : Option Int)
    (u : UserRow) : UserRow :=
  if u.originalTransactionId = some otid then
    { u with isVip := isVip, vipExpireMs := vipExpireMs }
  else u

/-- `AuthDatabase.update_users_vip_status_by_original_transaction_id`. -/
def update_users_vip_status_by_otid (s : DbState) (otid : String) (isVip : Bool)
    (vipExpireMs : Option Int) : DbState :=
  { s with users := s.users.map (vipRowUpdate otid isVip vipExpireMs) }

/-- `AuthDatabase.create_notification_log` (lines 378–411): INSERT guarded
by the UNIQUE `notification_uuid` constraint; `True` when inserted, `False`
on the duplicate-key `IntegrityError`. -/
def create_notification_log (s : DbState) (row : NotificationLogRow) :
    Bool × DbState :=
  if s.notificationLogs.any (fun l => l.notificationUuid = row.notificationUuid) then
    (false, s)
  else
    (true, { s with notificationLogs := s.notificationLogs ++ [row] })

/-- Modelled from the spec: `AuthDatabase.record_purchase_event` is absent
from `src/`; per §4.3.3 step 11 the PurchaseEvent row exists "for
analytics/dedup", so the insert deduplicates on its `transactionID` key. -/
def record_purchase_event (s : DbState) (transactionId otid eventType : String)
    (deviceUuid : Option String) : DbState :=
  if s.purchaseEvents.any (fun e => e.transactionId = transactionId) then s
  else
    { s with purchaseEvents := s.purchaseEvents ++
        [{ transactionId := transactionId, originalTransactionId := otid,
           eventType := eventType, deviceUuid := deviceUuid }] }

/-! ## Device binder — `DeviceManager`
(`src/server/utils/device_manager.py`). -/

/-- Stable insertion step for sorting bindings by `last_active_time`
ascending (ties keep table order, matching the SQL `ORDER BY
last_active_time ASC` read in rowid order). -/
def insertByActive (b : BindingRow) : List BindingRow → List BindingRow
  | [] => [b]
  | x :: xs =>
    if b.lastActiveMs ≤ x.lastActiveMs then b :: x :: xs
    else x :: insertByActive b xs

/-- Stable sort of bindings by `last_active_time` ascending. -/
def sortByActive (l : List BindingRow) : List BindingRow :=
  l.foldr insertByActive []

/-- The result dictionary of `DeviceManager.bind_device`. -/
structure BindResult where
  code : Nat
  boundDevices : List String
  kickedDevice : Option String
deriving DecidableEq

/-- `DeviceManager.bind_device` (lines 17–144).  Reads the bindings for the
id sorted by `last_active_time` ascending, then: (1) already bound →
refresh `last_active_time`; (2) fewer than `MAX_DEVICES = 2` → insert and
set `purchase_records.device_count`; (3) full → delete `bindings[0]` (the
least recently active), downgrade that device's user row, insert the new
binding, and report `bound_devices = [bindings[1], new]`.  `now_ms` is the
source's `datetime.now` read, made explicit.  The fall-through arm is
unreachable: case (3) only runs with at least 2 sorted bindings. -/
def bind_device (s : DbState) (otid deviceUuid : String)
    (deviceName : Option String) (nowMs : Int) : BindResult × DbState :=
  let bindings := sortByActive
    (s.deviceBindings.filter fun b => b.originalTransactionId = otid)
  if bindings.any (fun b => b.deviceUuid = deviceUuid) then
    ({ code := 0, boundDevices := bindings.map (fun b => b.deviceUuid),
       kickedDevice := none },
     { s with deviceBindings := s.deviceBindings.map fun b =>
         if b.originalTransactionId = otid ∧ b.deviceUuid = deviceUuid then
           { b with lastActiveMs := nowMs }
         else b })
  else if bindings.length < 2 then
    ({ code := 0,
       boundDevices := bindings.map (fun b => b.deviceUuid) ++ [deviceUuid],
       kickedDevice := none },
     { s with
       deviceBindings := s.deviceBindings ++
         [{ originalTransactionId := otid, deviceUuid := deviceUuid,
            deviceName := deviceName, bindTimeMs := nowMs,
            lastActiveMs := nowMs }]
       purchaseRecords := s.purchaseRecords.map fun r =>
         if r.originalTransactionId = otid then
           { r with deviceCount := bindings.length + 1 }
         else r })
  else
    match bindings with
    | b0 :: b1 :: _ =>
      ({ code := 0, boundDevices := [b1.deviceUuid, deviceUuid],
         kickedDevice := some b0.deviceUuid },
       { s with
         deviceBindings :=
           (s.deviceBindings.filter fun b =>
             ¬ (b.originalTransactionId = otid ∧ b.deviceUuid = b0.deviceUuid))
           ++ [{ originalTransactionId := otid, deviceUuid := deviceUuid,
                 deviceName := deviceName, bindTimeMs := nowMs,
                 lastActiveMs := nowMs }]
         users := s.users.map fun u =>
           if u.deviceUuid = b0.deviceUuid then
             { u with isVip := false, originalTransactionId := none }
           else u })
    | _ => ({ code := 0, boundDevices := [], kickedDevice := none }, s)

/-- One entry of the device list returned by
`DeviceManager.get_bound_devices` (lines 167–193). -/
structure DeviceInfo where
  deviceUuid : String
  deviceName : Option String
  bindTimeMs : Int
  lastActiveMs : Int
  isCurrent : Bool
deriving DecidableEq

/-- `DeviceManager.get_bound_devices`. -/
def get_bound_devices (s : DbState) (otid currentDeviceUuid : String) :
    List DeviceInfo :=
  (s.deviceBindings.filter fun b => b.originalTransactionId = otid).map fun b =>
    { deviceUuid := b.deviceUuid, deviceName := b.deviceName,
      bindTimeMs := b.bindTimeMs, lastActiveMs := b.lastActiveMs,
      isCurrent := b.deviceUuid = currentDeviceUuid }

/-- Response of the devices-list endpoint. -/
structure DevicesResponse where
  code : Nat
  message : String
  devices : List DeviceInfo
deriving DecidableEq

/-- `get_devices_handler` (`src/server/api/payment_api.py` lines 301–344):
404 for an unknown user; an empty list with `code = 0` for a non-VIP user or
a VIP user without an `original_transaction_id` (Python truthiness, so `""`
also counts as missing); otherwise the bound-devices list. -/
def get_devices_handler (s : DbState) (deviceUuid : String) :
    Except (Nat × String) DevicesResponse :=
  match get_user_by_uuid s deviceUuid with
  | none => Except.error (404, "User not found")
  | some user =>
    if !user.isVip then
      Except.ok { code := 0, message := "success", devices := [] }
    else if optFalsy user.originalTransactionId then
      Except.ok { code := 0, message := "success", devices := [] }
    else
      Except.ok { code := 0
                  message := "success"
                  devices := get_bound_devices s
                    (user.originalTransactionId.getD "") deviceUuid }

/-! ## App Store Server Notification handler
(`src/server/api/payment_api.py` lines 389–620).

The handler first JWS-verifies the envelope and the inner
`signedTransactionInfo` / `signedRenewalInfo`; the embedding takes the
decoded contents as input (a notification that fails JWS verification never
reaches this logic).  `nowMs` makes the source's `datetime.now` reads
explicit — it is only used as the `purchase_date` fallback when creating a
record. -/

/-- The classification sets of `payment_api.py` lines 16–40. -/
def APP_STORE_ACTIVE_TYPES : List String :=
  ["SUBSCRIBED", "DID_RENEW", "DID_RECOVER", "INTERACTIVE_RENEWAL",
   "RENEWAL_EXTENSION", "RENEWAL_EXTENDED", "REFUND_REVERSED"]

/-- Types that additionally record a purchase event. -/
def APP_STORE_TRANSACTION_TYPES : List String :=
  ["SUBSCRIBED", "DID_RENEW", "DID_RECOVER", "INTERACTIVE_RENEWAL"]

/-- The billing-retry type. -/
def APP_STORE_RETRY_TYPES : List String := ["DID_FAIL_TO_RENEW"]

/-- The expiry types. -/
def APP_STORE_EXPIRED_TYPES : List String := ["EXPIRED", "GRACE_PERIOD_EXPIRED"]

/-- The revocation types. -/
def APP_STORE_REVOKE_TYPES : List String := ["REFUND", "REVOKE"]

/-- Types acknowledged but ignored. -/
def APP_STORE_IGNORE_TYPES : List String :=
  ["DID_CHANGE_RENEWAL_STATUS", "DID_CHANGE_RENEWAL_PREF", "PRICE_INCREASE",
   "OFFER_REDEEMED", "CONSUMPTION_REQUEST"]

/-- `_max_ms` (`payment_api.py` lines 47–49): max of the present values. -/
def max_ms (a b : Option Int) : Option Int :=
  match a, b with
  | none, none => none
  | some x, none => some x
  | none, some y => some y
  | some x, some y => some (max x y)

/-- The fields of a verified `signedTransactionInfo` payload after
`AppleReceiptValidator.parse_transaction` (camelCase and snake_case source
keys collapse into one optional field; `environment` defaults to
`"Production"`). -/
structure TransactionInfo where
  originalTransactionId : Option String
  transactionId : Option String
  productId : Option String
  purchaseDateMs : Option Int
  expiresDateMs : Option Int
  environment : String
deriving DecidableEq

/-- The fields of a verified `signedRenewalInfo` payload after
`AppleReceiptValidator.parse_renewal_info` (only the field the handler
reads). -/
structure RenewalInfo where
  originalTransactionId : Option String
  gracePeriodExpiresDateMs : Option Int
deriving DecidableEq

/-- A decoded App Store server notification (the payload of the verified
envelope, with the inner signed infos already verified and parsed;
`none` models an absent `signedTransactionInfo` / `signedRenewalInfo`). -/
structure AppStoreNotification where
  notificationType : Option String
  subtype : Option String
  notificationUuid : Option String
  dataPresent : Bool
  bundleId : Option String
  appAppleId : Option String
  dataEnvironment : Option String
  transactionInfo : Option TransactionInfo
  renewalInfo : Option RenewalInfo
  signedPayload : String
deriving DecidableEq

/-- `_load_app_store_config` (`payment_api.py` lines 63–68): expected
bundle id, Apple app id, and environment (each skipped when unset/empty). -/
structure AppStoreConfig where
  bundleId : Option String
  appAppleId : Option String
  environment : Option String
deriving DecidableEq

/-- Python `str(x)` where a missing value prints as `"None"`. -/
def pyStrOpt (o : Option String) : String :=
  match o with
  | none => "None"
  | some s => s

/-- `_validate_notification_data` (`payment_api.py` lines 71–85), as a
boolean: every configured expectation must match (the source raises
`ValueError` on the first mismatch). -/
def validate_notification_data (cfg : AppStoreConfig) (n : AppStoreNotification) :
    Bool :=
  (match cfg.bundleId with
   | none => true
   | some e => if e = "" then true else n.bundleId = some e)
  && (match cfg.appAppleId with
   | none => true
   | some e => if e = "" then true else pyStrOpt n.appAppleId = e)
  && (match cfg.environment with
   | none => true
   | some e => if e = "" then true
       else pyLower (pyStrOpt n.dataEnvironment) = pyLower e)

/-- The handler's response dictionary (`code = 0` on every non-error
return; branch-specific keys default to their absent values). -/
structure NotifResponse where
  code : Nat
  message : String
  test : Bool := false
  ignored : Bool := false
  stale : Bool := false
  duplicate : Bool
  notificationType : Option String := none
  isVip : Option Bool := none
  vipExpireMs : Option Int := none
deriving DecidableEq

/-- `max(transaction.expiresDate, renewal.gracePeriodExpiresDate)` as the
handler computes it (lines 503–505). -/
def effectiveExpireOf (n : AppStoreNotification) : Option Int :=
  max_ms ((n.transactionInfo.map TransactionInfo.expiresDateMs).getD none)
    ((n.renewalInfo.map RenewalInfo.gracePeriodExpiresDateMs).getD none)

/-- The combined original transaction id (line 453–456): transaction info
first, renewal info when the former is falsy. -/
def notifOtid (n : AppStoreNotification) : Option String :=
  orStr ((n.transactionInfo.map TransactionInfo.originalTransactionId).getD none)
    ((n.renewalInfo.map RenewalInfo.originalTransactionId).getD none)

/-- The environment recorded by the handler (line 507):
`data.get("environment") or transaction_info.get("environment")`. -/
def notifEnvironment (n : AppStoreNotification) : Option String :=
  orStr n.dataEnvironment (n.transactionInfo.map TransactionInfo.environment)

/-- The stale-event guard condition (lines 547–552). -/
def staleGuard (existingExpireMs effectiveExpireMs : Option Int) (ntype : String) :
    Bool :=
  match existingExpireMs, effectiveExpireMs with
  | some e, some f =>
    decide (f < e)
      && (APP_STORE_EXPIRED_TYPES ++ APP_STORE_RETRY_TYPES).contains ntype
  | _, _ => false

/-- The expiry-widening condition (lines 569–571). -/
def shouldWiden (existingExpireMs effectiveExpireMs : Option Int) : Bool :=
  match effectiveExpireMs with
  | none => false
  | some f =>
    match existingExpireMs with
    | none => true
    | some e => decide (e < f)

/-- `app_store_notification_handler` (`payment_api.py` lines 389–620), from
the decoded notification onward.  `Except.error` is the `ValueError` path
(HTTP 400); every `Except.ok` result carries `code = 0`. -/
def app_store_notification_handler (cfg : AppStoreConfig)
    (n : AppStoreNotification) (nowMs : Int) (s : DbState) :
    Except String (NotifResponse × DbState) :=
  if optFalsy n.notificationUuid then Except.error "Missing notificationUUID"
  else if optFalsy n.notificationType then Except.error "Missing notificationType"
  else
    let uuid := n.notificationUuid.getD ""
    let ntype := n.notificationType.getD ""
    if ntype = "TEST" then
      let r := create_notification_log s
        { notificationUuid := uuid, notificationType := some ntype,
          subtype := n.subtype, originalTransactionId := none,
          transactionId := none, environment := none,
          signedPayload := n.signedPayload }
      Except.ok
        ({ code := 0, message := "success", test := true, duplicate := !r.1 },
         r.2)
    else if !n.dataPresent then Except.error "Missing notification data"
    else if !validate_notification_data cfg n then
      Except.error "notification data mismatch"
    else
      let txid := (n.transactionInfo.map TransactionInfo.transactionId).getD none
      let otid? := notifOtid n
      if APP_STORE_IGNORE_TYPES.contains ntype then
        let r := create_notification_log s
          { notificationUuid := uuid, notificationType := some ntype,
            subtype := n.subtype, originalTransactionId := otid?,
            transactionId := txid, environment := n.dataEnvironment,
            signedPayload := n.signedPayload }
        Except.ok
          ({ code := 0, message := "success", ignored := true,
             duplicate := !r.1 }, r.2)
      else if !((APP_STORE_ACTIVE_TYPES ++ APP_STORE_RETRY_TYPES
          ++ APP_STORE_EXPIRED_TYPES ++ APP_STORE_REVOKE_TYPES).contains ntype) then
        let r := create_notification_log s
          { notificationUuid := uuid, notificationType := some ntype,
            subtype := n.subtype, originalTransactionId := otid?,
            transactionId := txid, environment := n.dataEnvironment,
            signedPayload := n.signedPayload }
        Except.ok
          ({ code := 0, message := "success", ignored := true,
             duplicate := !r.1 }, r.2)
      else if optFalsy otid? then Except.error "Missing originalTransactionId"
      else
        let otid := otid?.getD ""
        let productId := (n.transactionInfo.map TransactionInfo.productId).getD none
        let purchaseDateMs :=
          ((n.transactionInfo.map TransactionInfo.purchaseDateMs).getD none).getD
            nowMs
        let effective := effectiveExpireOf n
        let environment := notifEnvironment n
        let status :=
          if APP_STORE_ACTIVE_TYPES.contains ntype then "active"
          else if APP_STORE_RETRY_TYPES.contains ntype then "in_retry"
          else if APP_STORE_EXPIRED_TYPES.contains ntype then "expired"
          else "revoked"
        let isVip := APP_STORE_ACTIVE_TYPES.contains ntype
          || APP_STORE_RETRY_TYPES.contains ntype
        let existing0 := get_purchase_record s otid
        if existing0 = none && optFalsy productId then
          Except.error "Missing productId"
        else
          -- creation (returns None in Python, so the handler refetches)
          let s1 :=
            match existing0 with
            | some _ => s
            | none => create_purchase_record s otid (productId.getD "")
                purchaseDateMs effective status
                (if optFalsy environment then "production"
                 else environment.getD "")
          let existingRec :=
            match existing0 with
            | some r => some r
            | none => get_purchase_record s1 otid
          let existingExpire := existingRec.bind PurchaseRecordRow.expireDateMs
          if staleGuard existingExpire effective ntype then
            let r := create_notification_log s1
              { notificationUuid := uuid, notificationType := some ntype,
                subtype := n.subtype, originalTransactionId := some otid,
                transactionId := txid, environment := environment,
                signedPayload := n.signedPayload }
            Except.ok
              ({ code := 0, message := "success", stale := true,
                 duplicate := !r.1 }, r.2)
          else
            let s2 :=
              match existingRec with
              | none => s1
              | some _ =>
                let s2a :=
                  if shouldWiden existingExpire effective then
                    update_purchase_record s1 otid effective
                  else s1
                let statusExpire :=
                  if (APP_STORE_EXPIRED_TYPES ++ APP_STORE_REVOKE_TYPES).contains
                      ntype then effective
                  else none
                update_purchase_record_status s2a otid status statusExpire
                  environment
            let s3 := update_users_vip_status_by_otid s2 otid isVip effective
            let s4 :=
              if !optFalsy txid && APP_STORE_TRANSACTION_TYPES.contains ntype then
                record_purchase_event s3 (txid.getD "") otid ntype none
              else s3
            let r := create_notification_log s4
              { notificationUuid := uuid, notificationType := some ntype,
                subtype := n.subtype, originalTransactionId := some otid,
                transactionId := txid, environment := environment,
                signedPayload := n.signedPayload }
            Except.ok
              ({ code := 0, message := "success", duplicate := !r.1,
                 notificationType := some ntype, isVip := some isVip,
                 vipExpireMs := effective }, r.2)

/-- C10: for an existing user without an entitlement — not VIP, or VIP with
a null `original_transaction_id` — the devices endpoint returns `code = 0`
with an empty list (never 403/404), and its answer does not depend on the
binding table at all. -/
theorem C10_devices_no_entitlement :
    (∀ (s : DbState) (deviceUuid : String) (u : UserRow),
      get_user_by_uuid s deviceUuid = some u →
      (u.isVip = false ∨ u.originalTransactionId = none) →
      get_devices_handler s deviceUuid =
        Except.ok { code := 0, message := "success", devices := [] })
    ∧ (∀ (s : DbState) (bindings : List BindingRow) (deviceUuid : String)
        (u : UserRow),
      get_user_by_uuid s deviceUuid = some u →
      (u.isVip = false ∨ u.originalTransactionId = none) →
      get_devices_handler { s with deviceBindings := bindings } deviceUuid =
        get_devices_handler s deviceUuid) := by
  have main : ∀ (s : DbState) (deviceUuid : String) (u : UserRow),
      get_user_by_uuid s deviceUuid = some u →
      (u.isVip = false ∨ u.originalTransactionId = none) →
      get_devices_handler s deviceUuid =
        Except.ok { code := 0, message := "success", devices := [] } := by
    intro s deviceUuid u hu hcond
    unfold get_devices_handler
    rw [hu]
    rcases hcond with hvip | hotid
    · simp [hvip]
    · by_cases hv : u.isVip
      · simp [hv, hotid, optFalsy]
      · simp [hv]
  refine ⟨main, ?_⟩
  intro s bindings deviceUuid u hu hcond
  have hu2 : get_user_by_uuid { s with deviceBindings := bindings } deviceUuid
      = some u := hu
  rw [main _ _ _ hu2 hcond, main _ _ _ hu hcond]

/-- A state with a non-VIP user `"A"`, a VIP user `"B"` without an
`original_transaction_id`, and a stray binding row. -/
def c10state : DbState :=
  { users := [{ deviceUuid := "A", originalTransactionId := some "1000",
                isVip := false, vipExpireMs := some 5 },
              { deviceUuid := "B", originalTransactionId := none,
                isVip := true, vipExpireMs := none }]
    purchaseRecords := []
    deviceBindings := [{ originalTransactionId := "1000", deviceUuid := "A",
                         deviceName := none, bindTimeMs := 0,
                         lastActiveMs := 0 }]
    transactionLogs := []
    notificationLogs := []
    purchaseEvents := [] }

/-- C10 witness: both entitlement-free users of `c10state` receive
`code = 0` with no devices. -/
theorem C10_devices_no_entitlement_witness :
    get_devices_handler c10state "A" =
      Except.ok { code := 0, message := "success", devices := [] }
    ∧ get_devices_handler c10state "B" =
      Except.ok { code := 0, message := "success", devices := [] } :=
  ⟨C10_devices_no_entitlement.1 c10state "A" _ rfl (Or.inl rfl),
   C10_devices_no_entitlement.1 c10state "B" _ rfl (Or.inr rfl)⟩

/-- Inserting into the active-time sort adds one element. -/
theorem insertByActive_length (b : BindingRow) (l : List BindingRow) :
    (insertByActive b l).length = l.length + 1 := by
  induction l with
  | nil => rfl
  | cons x xs ih =>
    unfold insertByActive
    split
    · rfl
    · simpa using ih

/-- The active-time sort preserves length. -/
theorem sortByActive_length (l : List BindingRow) :
    (sortByActive l).length = l.length := by
  induction l with
  | nil => rfl
  | cons x xs ih => simp [sortByActive, List.foldr] at ih ⊢
                    rw [insertByActive_length, ih]

/-- Filtering after a predicate-preserving map keeps the filtered length. -/
theorem length_filter_map_pres (f : BindingRow → BindingRow)
    (p : BindingRow → Bool) (hp : ∀ b, p (f b) = p b) (l : List BindingRow) :
    ((l.map f).filter p).length = (l.filter p).length := by
  induction l with
  | nil => rfl
  | cons a t ih =>
    simp only [List.map_cons, List.filter_cons, hp a]
    split <;> simpa using ih

/-- Removing one present element that satisfies both predicates drops the
conjunctive filter strictly below the plain filter. -/
theorem length_filter_erase_lt (l : List BindingRow) (p q : BindingRow → Bool)
    (x : BindingRow) (hx : x ∈ l) (hpx : p x = true) (hqx : q x = true) :
    (l.filter fun b => p b && !(q b)).length + 1 ≤ (l.filter p).length := by
  have hmono : ∀ t : List BindingRow,
      (t.filter fun b => p b && !(q b)).length ≤ (t.filter p).length := by
    intro t
    have h1 : (t.filter fun b => !(q b)).filter p =
        t.filter fun b => p b && !(q b) := by rw [List.filter_filter]
    rw [← h1, List.filter_comm]
    exact List.length_filter_le _ _
  induction l with
  | nil => cases hx
  | cons a t ih =>
    rcases List.mem_cons.mp hx with rfl | hxt
    · rw [List.filter_cons, List.filter_cons]
      simp only [hpx, hqx]
      simpa using Nat.succ_le_succ (hmono t)
    · have hrec := ih hxt
      rw [List.filter_cons, List.filter_cons]
      by_cases hpa : p a = true
      · by_cases hqa : q a = true
        · simp [hpa, hqa]
          omega
        · simp only [Bool.not_eq_true] at hqa
          simp [hpa, hqa]
          omega
      · simp only [Bool.not_eq_true] at hpa
        simp [hpa]
        omega

/-- Membership in an active-time insertion. -/
theorem mem_insertByActive (a b : BindingRow) (l : List BindingRow) :
    a ∈ insertByActive b l ↔ a = b ∨ a ∈ l := by
  induction l with
  | nil => simp [insertByActive]
  | cons x xs ih =>
    unfold insertByActive
    split
    · simp
    · simp [ih]
      tauto

/-- Membership is preserved by the active-time sort. -/
theorem mem_sortByActive (a : BindingRow) (l : List BindingRow) :
    a ∈ sortByActive l ↔ a ∈ l := by
  induction l with
  | nil => simp [sortByActive]
  | cons x xs ih =>
    simp only [sortByActive, List.foldr] at ih ⊢
    rw [mem_insertByActive]
    simp [ih]


/-- C2: (i) `bind_device` preserves the two-bindings-per-subscription bound;
(ii) when the id already has exactly the two bindings `x` and `y` (in table
order, for distinct devices) and a third device arrives, the binding `E`
with minimum `last_active_time` is kicked: the result reports
`kickedDevice = E` and `boundDevices = [other, new]`, the table afterwards
holds exactly 2 bindings for the id — the new device but no longer `E` —
and every user row of the kicked device is downgraded to
`isVIP = false, originalTransactionID = null`. -/
theorem C2_bind_device_policy :
    (∀ (s : DbState) (otid deviceUuid : String) (name : Option String)
        (nowMs : Int),
      (s.deviceBindings.filter fun b =>
        b.originalTransactionId = otid).length ≤ 2 →
      ((bind_device s otid deviceUuid name nowMs).2.deviceBindings.filter
        fun b => b.originalTransactionId = otid).length ≤ 2)
    ∧ (∀ (s : DbState) (otid deviceUuid : String) (name : Option String)
        (nowMs : Int) (x y : BindingRow),
      s.deviceBindings.filter (fun b => b.originalTransactionId = otid)
        = [x, y] →
      x.deviceUuid ≠ deviceUuid → y.deviceUuid ≠ deviceUuid →
      x.deviceUuid ≠ y.deviceUuid →
      ((bind_device s otid deviceUuid name nowMs).1.kickedDevice
          = some (if x.lastActiveMs ≤ y.lastActiveMs then x else y).deviceUuid
        ∧ (bind_device s otid deviceUuid name nowMs).1.boundDevices
          = [(if x.lastActiveMs ≤ y.lastActiveMs then y else x).deviceUuid,
             deviceUuid]
        ∧ (if x.lastActiveMs ≤ y.lastActiveMs then x else y).lastActiveMs
          = min x.lastActiveMs y.lastActiveMs
        ∧ ((bind_device s otid deviceUuid name nowMs).2.deviceBindings.filter
            fun b => b.originalTransactionId = otid).length = 2
        ∧ (bind_device s otid deviceUuid name nowMs).2.deviceBindings.any
            (fun b => b.originalTransactionId = otid ∧ b.deviceUuid =
              (if x.lastActiveMs ≤ y.lastActiveMs then x else y).deviceUuid)
          = false
        ∧ (bind_device s otid deviceUuid name nowMs).2.deviceBindings.any
            (fun b => b.originalTransactionId = otid
              ∧ b.deviceUuid = deviceUuid) = true
        ∧ (∀ u ∈ (bind_device s otid deviceUuid name nowMs).2.users,
            u.deviceUuid =
              (if x.lastActiveMs ≤ y.lastActiveMs then x else y).deviceUuid →
            u.isVip = false ∧ u.originalTransactionId = none))) := by
  constructor
  · intro s otid du name nowMs hle2
    unfold bind_device
    by_cases h1 : (sortByActive (s.deviceBindings.filter fun b =>
        b.originalTransactionId = otid)).any (fun b => b.deviceUuid = du) = true
    · rw [if_pos h1]
      have := length_filter_map_pres
        (fun b => if b.originalTransactionId = otid ∧ b.deviceUuid = du then
          { b with lastActiveMs := nowMs } else b)
        (fun b => decide (b.originalTransactionId = otid)) ?_ s.deviceBindings
      · simpa using this.le.trans hle2
      · intro b
        by_cases hb : b.originalTransactionId = otid ∧ b.deviceUuid = du <;>
          simp [hb]
    · rw [if_neg h1]
      by_cases h2 : (sortByActive (s.deviceBindings.filter fun b =>
          b.originalTransactionId = otid)).length < 2
      · rw [if_pos h2]
        rw [sortByActive_length] at h2
        simp only [List.filter_append]
        rw [List.length_append]
        have hnew : (List.filter (fun b =>
            decide (b.originalTransactionId = otid))
            [({ originalTransactionId := otid, deviceUuid := du,
                deviceName := name, bindTimeMs := nowMs,
                lastActiveMs := nowMs } : BindingRow)]).length = 1 := by
          simp
        omega
      · rw [if_neg h2]
        cases hsort : sortByActive (s.deviceBindings.filter fun b =>
            b.originalTransactionId = otid) with
        | nil => rw [hsort] at h2; simp at h2
        | cons b0 tl =>
          cases tl with
          | nil => rw [hsort] at h2; simp at h2
          | cons b1 rest =>
            have hmem0 : b0 ∈ s.deviceBindings.filter fun b =>
                b.originalTransactionId = otid := by
              rw [← mem_sortByActive, hsort]; simp
            have hb0otid : b0.originalTransactionId = otid := by
              simpa using List.of_mem_filter hmem0
            have hb0mem : b0 ∈ s.deviceBindings := List.mem_of_mem_filter hmem0
            simp only [List.filter_append, List.length_append]
            have herase := length_filter_erase_lt s.deviceBindings
              (fun b => decide (b.originalTransactionId = otid))
              (fun b => decide (b.originalTransactionId = otid
                ∧ b.deviceUuid = b0.deviceUuid))
              b0 hb0mem (by simp [hb0otid]) (by simp [hb0otid])
            have hcomm : (List.filter (fun b =>
                decide (b.originalTransactionId = otid))
                (s.deviceBindings.filter fun b =>
                  ¬ (b.originalTransactionId = otid
                    ∧ b.deviceUuid = b0.deviceUuid))).length =
                (s.deviceBindings.filter fun b =>
                  decide (b.originalTransactionId = otid) &&
                  !(decide (b.originalTransactionId = otid
                    ∧ b.deviceUuid = b0.deviceUuid))).length := by
              rw [List.filter_filter]
              congr 1
              apply List.filter_congr
              intro b hb
              simp [decide_not, Bool.and_comm]
            have hnew : (List.filter (fun b =>
                decide (b.originalTransactionId = otid))
                [({ originalTransactionId := otid, deviceUuid := du,
                    deviceName := name, bindTimeMs := nowMs,
                    lastActiveMs := nowMs } : BindingRow)]).length = 1 := by
              simp
            rw [hcomm]
            have herase2 : (s.deviceBindings.filter fun b =>
                decide (b.originalTransactionId = otid) &&
                !(decide (b.originalTransactionId = otid
                  ∧ b.deviceUuid = b0.deviceUuid))).length + 1 ≤
                (s.deviceBindings.filter fun b =>
                  decide (b.originalTransactionId = otid)).length := by
              simpa using herase
            omega
  · intro s otid du name nowMs x y hflt hxdu hydu hxy
    have hmemx : x ∈ s.deviceBindings.filter fun b =>
        b.originalTransactionId = otid := by rw [hflt]; simp
    have hmemy : y ∈ s.deviceBindings.filter fun b =>
        b.originalTransactionId = otid := by rw [hflt]; simp
    have hxotid : x.originalTransactionId = otid := by
      simpa using List.of_mem_filter hmemx
    have hyotid : y.originalTransactionId = otid := by
      simpa using List.of_mem_filter hmemy
    unfold bind_device
    rw [hflt]
    by_cases hle : x.lastActiveMs ≤ y.lastActiveMs
    · have hsort : sortByActive [x, y] = [x, y] := by
        simp [sortByActive, insertByActive, hle]
      rw [hsort]
      rw [if_neg (by simp [hxdu, hydu]), if_neg (by simp)]
      refine ⟨?_, ?_, ?_, ?_, ?_, ?_, ?_⟩
      · rw [if_pos hle]
      · rw [if_pos hle]
      · rw [if_pos hle]; omega
      · simp only [List.filter_append, List.length_append]
        have hcomm : List.filter (fun b =>
            decide (b.originalTransactionId = otid))
            (s.deviceBindings.filter fun b =>
              ¬ (b.originalTransactionId = otid
                ∧ b.deviceUuid = x.deviceUuid)) =
            List.filter (fun b =>
              ¬ (b.originalTransactionId = otid
                ∧ b.deviceUuid = x.deviceUuid))
            (s.deviceBindings.filter fun b =>
              decide (b.originalTransactionId = otid)) :=
          List.filter_comm _ _ _
        rw [hcomm, hflt]
        simp [hxotid, hyotid, hxy, Ne.symm hxy]
      · rw [if_pos hle]
        simp only [List.any_append]
        have h2 : (s.deviceBindings.filter fun b =>
            ¬ (b.originalTransactionId = otid
              ∧ b.deviceUuid = x.deviceUuid)).any
            (fun b => decide (b.originalTransactionId = otid
              ∧ b.deviceUuid = x.deviceUuid)) = false := by
          rw [List.any_eq_false]
          intro b hb
          have h3 := List.of_mem_filter hb
          simp at h3 ⊢
          tauto
        simp only [h2]
        simp [Ne.symm hxdu]
      · simp only [List.any_append]
        simp
      · intro u hu hud
        rw [if_pos hle] at hud
        simp only [List.mem_map] at hu
        obtain ⟨u0, hu0, hueq⟩ := hu
        by_cases h0 : u0.deviceUuid = x.deviceUuid
        · rw [← hueq]
          simp [h0]
        · rw [← hueq] at hud
          simp [h0] at hud
    · have hsort : sortByActive [x, y] = [y, x] := by
        simp [sortByActive, insertByActive, hle]
      rw [hsort]
      rw [if_neg (by simp [hxdu, hydu]), if_neg (by simp)]
      refine ⟨?_, ?_, ?_, ?_, ?_, ?_, ?_⟩
      · rw [if_neg hle]
      · rw [if_neg hle]
      · rw [if_neg hle]; omega
      · simp only [List.filter_append, List.length_append]
        have hcomm : List.filter (fun b =>
            decide (b.originalTransactionId = otid))
            (s.deviceBindings.filter fun b =>
              ¬ (b.originalTransactionId = otid
                ∧ b.deviceUuid = y.deviceUuid)) =
            List.filter (fun b =>
              ¬ (b.originalTransactionId = otid
                ∧ b.deviceUuid = y.deviceUuid))
            (s.deviceBindings.filter fun b =>
              decide (b.originalTransactionId = otid)) :=
          List.filter_comm _ _ _
        rw [hcomm, hflt]
        simp [hxotid, hyotid, hxy, Ne.symm hxy]
      · rw [if_neg hle]
        simp only [List.any_append]
        have h2 : (s.deviceBindings.filter fun b =>
            ¬ (b.originalTransactionId = otid
              ∧ b.deviceUuid = y.deviceUuid)).any
            (fun b => decide (b.originalTransactionId = otid
              ∧ b.deviceUuid = y.deviceUuid)) = false := by
          rw [List.any_eq_false]
          intro b hb
          have h3 := List.of_mem_filter hb
          simp at h3 ⊢
          tauto
        simp only [h2]
        simp [Ne.symm hydu]
      · simp only [List.any_append]
        simp
      · intro u hu hud
        rw [if_neg hle] at hud
        simp only [List.mem_map] at hu
        obtain ⟨u0, hu0, hueq⟩ := hu
        by_cases h0 : u0.deviceUuid = y.deviceUuid
        · rw [← hueq]
          simp [h0]
        · rw [← hueq] at hud
          simp [h0] at hud

/-- The spec's bind-third-device scenario: device `A` last active at 100 and
`B` at 200, both bound to subscription `"1000"`. -/
def bindA : BindingRow :=
  { originalTransactionId := "1000", deviceUuid := "A", deviceName := none,
    bindTimeMs := 100, lastActiveMs := 100 }

/-- The second, more recently active binding of the scenario. -/
def bindB : BindingRow :=
  { originalTransactionId := "1000", deviceUuid := "B", deviceName := none,
    bindTimeMs := 200, lastActiveMs := 200 }

/-- State for the scenario: user `A` is currently VIP on subscription
`"1000"`. -/
def c2state : DbState :=
  { users := [{ deviceUuid := "A", originalTransactionId := some "1000",
                isVip := true, vipExpireMs := some 999999 }]
    purchaseRecords := []
    deviceBindings := [bindA, bindB]
    transactionLogs := []
    notificationLogs := []
    purchaseEvents := [] }

/-- C2 witness: binding device `C` at `now = 300` kicks `A` (the least
recently active), reports `boundDevices = [B, C]`, keeps exactly two
bindings, and downgrades user `A`. -/
theorem C2_bind_device_policy_witness :
    (bind_device c2state "1000" "C" (some "iPad") 300).1.kickedDevice = some "A"
    ∧ (bind_device c2state "1000" "C" (some "iPad") 300).1.boundDevices
        = ["B", "C"]
    ∧ ((bind_device c2state "1000" "C" (some "iPad") 300).2.deviceBindings.filter
        fun b => b.originalTransactionId = "1000").length = 2
    ∧ (∀ u ∈ (bind_device c2state "1000" "C" (some "iPad") 300).2.users,
        u.deviceUuid = "A" → u.isVip = false ∧ u.originalTransactionId = none)
    := by
  have h := C2_bind_device_policy.2 c2state "1000" "C" (some "iPad") 300
    bindA bindB (by decide) (by decide) (by decide) (by decide)
  obtain ⟨h1, h2, h3, h4, h5, h6, h7⟩ := h
  refine ⟨?_, ?_, ?_, ?_⟩
  · simpa [bindA, bindB] using h1
  · simpa [bindA, bindB] using h2
  · simpa using h4
  · intro u hu hud
    exact h7 u hu (by simpa [bindA, bindB] using hud)

/-- C5: the stale-event guard.  For a notification classified
expired/in-retry whose effective expiry (max of the transaction's
`expiresDate` and the renewal's `gracePeriodExpiresDate`) is strictly below
the stored record's expiry, the handler leaves purchase records, users,
purchase events and transaction logs untouched, still appends the
NotificationLog row, and answers `stale = true`, `duplicate = false`,
`code = 0`. -/
theorem C5_stale_guard_skips_mutation
    (cfg : AppStoreConfig) (n : AppStoreNotification) (nowMs : Int)
    (s : DbState) (t T : String) (rec : PurchaseRecordRow) (e f : Int)
    (huuid : optFalsy n.notificationUuid = false)
    (ht : n.notificationType = some t)
    (hclass : (APP_STORE_EXPIRED_TYPES ++ APP_STORE_RETRY_TYPES).contains t
      = true)
    (hdata : n.dataPresent = true)
    (hvalid : validate_notification_data cfg n = true)
    (hotid : notifOtid n = some T) (hT : T ≠ "")
    (hrec : get_purchase_record s T = some rec)
    (hexp : rec.expireDateMs = some e)
    (heff : effectiveExpireOf n = some f)
    (hlt : f < e)
    (hnolog : s.notificationLogs.any (fun l =>
      l.notificationUuid = n.notificationUuid.getD "") = false) :
    app_store_notification_handler cfg n nowMs s =
      Except.ok
        ({ code := 0, message := "success", stale := true, duplicate := false },
         { s with notificationLogs := s.notificationLogs ++
             [{ notificationUuid := n.notificationUuid.getD "",
                notificationType := some t, subtype := n.subtype,
                originalTransactionId := some T,
                transactionId :=
                  (n.transactionInfo.map TransactionInfo.transactionId).getD none,
                environment := notifEnvironment n,
                signedPayload := n.signedPayload }] }) := by
  have htfalsy : optFalsy n.notificationType = false := by
    rw [ht]
    simp only [APP_STORE_EXPIRED_TYPES, APP_STORE_RETRY_TYPES] at hclass
    rcases (by simpa using hclass : t = "EXPIRED" ∨ t = "GRACE_PERIOD_EXPIRED"
        ∨ t = "DID_FAIL_TO_RENEW") with rfl | rfl | rfl <;> decide
  rcases (by
      simp only [APP_STORE_EXPIRED_TYPES, APP_STORE_RETRY_TYPES] at hclass
      simpa using hclass : t = "EXPIRED" ∨ t = "GRACE_PERIOD_EXPIRED"
      ∨ t = "DID_FAIL_TO_RENEW") with rfl | rfl | rfl <;>
  · unfold app_store_notification_handler
    rw [huuid, htfalsy]
    simp only [Bool.false_eq_true, if_false, ht, Option.getD_some]
    rw [if_neg (by decide)]
    rw [hdata, hvalid]
    simp only [Bool.not_true, Bool.false_eq_true, if_false, if_true]
    rw [hotid]
    rw [if_neg (by decide)]
    rw [if_neg (by decide)]
    rw [if_neg (by simpa [optFalsy] using hT)]
    simp only [Option.getD_some]
    simp only [hrec]
    rw [if_neg (by simp)]
    simp only [Option.bind, hexp, heff]
    rw [if_pos (by simp [staleGuard, hlt]; decide)]
    simp only [create_notification_log, hnolog]
    simp only [Bool.false_eq_true, if_false, Bool.not_true]

/-- The stored record of the out-of-order scenario: expiry 2,000,000. -/
def c5record : PurchaseRecordRow :=
  { originalTransactionId := "2000000555", productId := "com.test.sub",
    purchaseDateMs := 1000, expireDateMs := some 2000000, status := "active",
    environment := "production", deviceCount := 1 }

/-- State holding that record and an empty notification log. -/
def c5state : DbState :=
  { users := [{ deviceUuid := "D", originalTransactionId := some "2000000555",
                isVip := true, vipExpireMs := some 2000000 }]
    purchaseRecords := [c5record]
    deviceBindings := []
    transactionLogs := []
    notificationLogs := []
    purchaseEvents := [] }

/-- An incoming `EXPIRED` notification carrying expiry 1,000,000. -/
def c5notif : AppStoreNotification :=
  { notificationType := some "EXPIRED", subtype := none,
    notificationUuid := some "uuid-1", dataPresent := true,
    bundleId := some "zhangpei.com.LanguageFlow",
    appAppleId := some "6755928466", dataEnvironment := some "Production",
    transactionInfo := some
      { originalTransactionId := some "2000000555",
        transactionId := some "tx-9", productId := some "com.test.sub",
        purchaseDateMs := some 1000, expiresDateMs := some 1000000,
        environment := "Production" }
    renewalInfo := none
    signedPayload := "signed-payload" }

/-- The default App Store configuration values. -/
def c5cfg : AppStoreConfig :=
  { bundleId := some "zhangpei.com.LanguageFlow",
    appAppleId := some "6755928466", environment := none }

/-- C5 witness: the spec's out-of-order scenario — record expiry 2,000,000,
incoming `EXPIRED` with 1,000,000 — leaves the record untouched, logs the
notification, and answers `{stale: true, duplicate: false}`. -/
theorem C5_stale_guard_witness :
    app_store_notification_handler c5cfg c5notif 0 c5state =
      Except.ok
        ({ code := 0, message := "success", stale := true, duplicate := false },
         { c5state with notificationLogs :=
             [{ notificationUuid := "uuid-1", notificationType := some "EXPIRED",
                subtype := none, originalTransactionId := some "2000000555",
                transactionId := some "tx-9",
                environment := some "Production",
                signedPayload := "signed-payload" }] }) := by
  have h := C5_stale_guard_skips_mutation c5cfg c5notif 0 c5state "EXPIRED"
    "2000000555" c5record 2000000 1000000 (by decide) rfl (by decide) rfl
    (by decide) rfl (by decide) rfl rfl rfl (by decide) (by decide)
  simpa [c5notif, c5state, notifEnvironment, orStr, optFalsy] using h

/-- `find?` after a predicate-preserving map returns the mapped find. -/
theorem find?_map_pres (f : PurchaseRecordRow → PurchaseRecordRow)
    (p : PurchaseRecordRow → Bool) (hp : ∀ r, p (f r) = p r)
    (l : List PurchaseRecordRow) :
    (l.map f).find? p = (l.find? p).map f := by
  induction l with
  | nil => rfl
  | cons a t ih =>
    simp only [List.map_cons, List.find?_cons]
    rw [hp a]
    cases hpa : p a
    · simpa using ih
    · rfl

/-- The status update preserves the id predicate. -/
theorem statusRowUpdate_pres_otid (otid st : String) (se : Option Int)
    (env : Option String) (T : String) (r : PurchaseRecordRow) :
    decide ((statusRowUpdate otid st se env r).originalTransactionId = T)
      = decide (r.originalTransactionId = T) := by
  unfold statusRowUpdate
  split <;> rfl

/-- The expiry/renewal update preserves the id predicate. -/
theorem renewRow_pres_otid (otid : String) (exp : Option Int) (T : String)
    (r : PurchaseRecordRow) :
    decide (((if r.originalTransactionId = otid then
      { r with expireDateMs := exp, status := "active" } else
      r)).originalTransactionId = T) = decide (r.originalTransactionId = T) := by
  split <;> rfl

/-- The status update is idempotent on rows. -/
theorem statusRowUpdate_idem (otid st : String) (se : Option Int)
    (env : Option String) (r : PurchaseRecordRow) :
    statusRowUpdate otid st se env (statusRowUpdate otid st se env r)
      = statusRowUpdate otid st se env r := by
  unfold statusRowUpdate
  by_cases hr : r.originalTransactionId = otid
  · simp only [hr, if_true, if_pos hr]
    cases se <;> cases env <;> rfl
  · simp only [hr, if_false]

/-- The users VIP update is idempotent on rows. -/
theorem vipRowUpdate_idem (otid : String) (v : Bool) (e : Option Int)
    (u : UserRow) :
    vipRowUpdate otid v e (vipRowUpdate otid v e u) = vipRowUpdate otid v e u := by
  unfold vipRowUpdate
  by_cases hu : u.originalTransactionId = some otid
  · simp only [hu, if_true, if_pos hu]
  · simp only [hu, if_false]

/-- Mapping an idempotent function twice equals mapping it once. -/
theorem map_idem {α : Type} (f : α → α) (hf : ∀ a, f (f a) = f a)
    (l : List α) : (l.map f).map f = l.map f := by
  rw [List.map_map]
  exact List.map_congr_left fun a _ => hf a

/-- After `create_notification_log`, the uuid is present. -/
theorem log_mem_after (s : DbState) (row : NotificationLogRow) :
    ((create_notification_log s row).2.notificationLogs.any fun l =>
      l.notificationUuid = row.notificationUuid) = true := by
  unfold create_notification_log
  split
  · assumption
  · simp

/-- Inserting an already-present uuid is a no-op returning `false`. -/
theorem log_dup (s : DbState) (row : NotificationLogRow)
    (h : (s.notificationLogs.any fun l =>
      l.notificationUuid = row.notificationUuid) = true) :
    create_notification_log s row = (false, s) := by
  unfold create_notification_log
  rw [if_pos h]

/-- `create_notification_log` touches only the log table. -/
theorem create_log_other_tables (s : DbState) (row : NotificationLogRow) :
    (create_notification_log s row).2.purchaseRecords = s.purchaseRecords
    ∧ (create_notification_log s row).2.users = s.users
    ∧ (create_notification_log s row).2.purchaseEvents = s.purchaseEvents
    ∧ (create_notification_log s row).2.deviceBindings = s.deviceBindings
    ∧ (create_notification_log s row).2.transactionLogs = s.transactionLogs := by
  unfold create_notification_log
  split <;> exact ⟨rfl, rfl, rfl, rfl, rfl⟩

/-- After `record_purchase_event`, the transaction id is present. -/
theorem event_mem_after (s : DbState) (txid otid et : String)
    (du : Option String) :
    ((record_purchase_event s txid otid et du).purchaseEvents.any fun e =>
      e.transactionId = txid) = true := by
  unfold record_purchase_event
  split
  · assumption
  · simp

/-- Recording an already-present transaction id is a no-op. -/
theorem event_dup (s : DbState) (txid otid et : String) (du : Option String)
    (h : (s.purchaseEvents.any fun e => e.transactionId = txid) = true) :
    record_purchase_event s txid otid et du = s := by
  unfold record_purchase_event
  rw [if_pos h]

/-- `record_purchase_event` touches only the events table. -/
theorem event_other_tables (s : DbState) (txid otid et : String)
    (du : Option String) :
    (record_purchase_event s txid otid et du).purchaseRecords
      = s.purchaseRecords
    ∧ (record_purchase_event s txid otid et du).users = s.users
    ∧ (record_purchase_event s txid otid et du).notificationLogs
      = s.notificationLogs := by
  unfold record_purchase_event
  split <;> exact ⟨rfl, rfl, rfl⟩

/-- Fetching right after creating a missing record returns the new row. -/
theorem get_after_create (s : DbState) (otid pid : String) (pd : Int)
    (exp : Option Int) (st env : String)
    (h : get_purchase_record s otid = none) :
    get_purchase_record
      (create_purchase_record s otid pid pd exp st env) otid =
      some { originalTransactionId := otid, productId := pid,
             purchaseDateMs := pd, expireDateMs := exp, status := st,
             environment := env, deviceCount := 0 } := by
  unfold get_purchase_record at h ⊢
  unfold create_purchase_record
  simp only [List.find?_append, h]
  simp

/-- The notification type string the handler works with. -/
def notifNt (n : AppStoreNotification) : String := n.notificationType.getD ""

/-- The `transactionId` of the inner transaction info, if any. -/
def notifTxid (n : AppStoreNotification) : Option String :=
  (n.transactionInfo.map TransactionInfo.transactionId).getD none

/-- The status the handler assigns for the incoming type. -/
def notifStatus (n : AppStoreNotification) : String :=
  if APP_STORE_ACTIVE_TYPES.contains (notifNt n) then "active"
  else if APP_STORE_RETRY_TYPES.contains (notifNt n) then "in_retry"
  else if APP_STORE_EXPIRED_TYPES.contains (notifNt n) then "expired"
  else "revoked"

/-- The expiry passed to the status update (terminal types only). -/
def notifStatusExpire (n : AppStoreNotification) : Option Int :=
  if (APP_STORE_EXPIRED_TYPES ++ APP_STORE_REVOKE_TYPES).contains (notifNt n)
  then effectiveExpireOf n else none

/-- The VIP flag the handler derives. -/
def notifIsVip (n : AppStoreNotification) : Bool :=
  APP_STORE_ACTIVE_TYPES.contains (notifNt n)
    || APP_STORE_RETRY_TYPES.contains (notifNt n)

/-- The log row of the `TEST` branch. -/
def testLogRow (n : AppStoreNotification) : NotificationLogRow :=
  { notificationUuid := n.notificationUuid.getD "",
    notificationType := some (notifNt n), subtype := n.subtype,
    originalTransactionId := none, transactionId := none,
    environment := none, signedPayload := n.signedPayload }

/-- The log row of the ignored/unknown branches. -/
def ignoredLogRow (n : AppStoreNotification) : NotificationLogRow :=
  { notificationUuid := n.notificationUuid.getD "",
    notificationType := some (notifNt n), subtype := n.subtype,
    originalTransactionId := notifOtid n, transactionId := notifTxid n,
    environment := n.dataEnvironment, signedPayload := n.signedPayload }

/-- The log row of the stale and main branches. -/
def mainLogRow (n : AppStoreNotification) : NotificationLogRow :=
  { notificationUuid := n.notificationUuid.getD "",
    notificationType := some (notifNt n), subtype := n.subtype,
    originalTransactionId := some ((notifOtid n).getD ""),
    transactionId := notifTxid n, environment := notifEnvironment n,
    signedPayload := n.signedPayload }

/-- The stale guard never fires when stored and incoming expiry agree. -/
theorem staleGuard_self (x : Option Int) (t : String) :
    staleGuard x x t = false := by
  cases x with
  | none => rfl
  | some v => simp [staleGuard]

/-- No widening when stored and incoming expiry agree. -/
theorem shouldWiden_self (x : Option Int) : shouldWiden x x = false := by
  cases x with
  | none => rfl
  | some v => simp [shouldWiden]

/-- Re-delivery of a `TEST` notification whose uuid is already logged: no
state change, `duplicate = true`. -/
theorem handler_second_run_test (cfg : AppStoreConfig)
    (n : AppStoreNotification) (now2 : Int) (s1 : DbState)
    (h1 : optFalsy n.notificationUuid = false)
    (h2 : optFalsy n.notificationType = false)
    (h3 : notifNt n = "TEST")
    (hlog : create_notification_log s1 (testLogRow n) = (false, s1)) :
    app_store_notification_handler cfg n now2 s1 =
      Except.ok
        ({ code := 0, message := "success", test := true, duplicate := true },
         s1) := by
  unfold app_store_notification_handler
  rw [h1, h2]
  simp only [Bool.false_eq_true, if_false]
  unfold notifNt at h3
  rw [if_pos h3]
  unfold testLogRow notifNt at hlog
  rw [h3] at hlog ⊢
  rw [hlog]
  rfl

/-- Re-delivery of an ignored or unknown-type notification whose uuid is
already logged. -/
theorem handler_second_run_ignored (cfg : AppStoreConfig)
    (n : AppStoreNotification) (now2 : Int) (s1 : DbState)
    (h1 : optFalsy n.notificationUuid = false)
    (h2 : optFalsy n.notificationType = false)
    (h3 : ¬ notifNt n = "TEST")
    (h4 : n.dataPresent = true)
    (h5 : validate_notification_data cfg n = true)
    (h6 : APP_STORE_IGNORE_TYPES.contains (notifNt n) = true
      ∨ (APP_STORE_IGNORE_TYPES.contains (notifNt n) = false
        ∧ (APP_STORE_ACTIVE_TYPES ++ APP_STORE_RETRY_TYPES
          ++ APP_STORE_EXPIRED_TYPES
          ++ APP_STORE_REVOKE_TYPES).contains (notifNt n) = false))
    (hlog : create_notification_log s1 (ignoredLogRow n) = (false, s1)) :
    app_store_notification_handler cfg n now2 s1 =
      Except.ok
        ({ code := 0, message := "success", ignored := true,
           duplicate := true }, s1) := by
  unfold app_store_notification_handler
  rw [h1, h2]
  simp only [Bool.false_eq_true, if_false]
  unfold notifNt at h3
  rw [if_neg h3, h4, h5]
  simp only [Bool.not_true, Bool.false_eq_true, if_false, if_true]
  unfold ignoredLogRow notifNt notifTxid at hlog
  rcases h6 with h6 | ⟨h6a, h6b⟩
  · unfold notifNt at h6
    rw [if_pos h6, hlog]
    rfl
  · unfold notifNt at h6a h6b
    rw [if_neg (by rw [h6a]; simp), if_pos (by rw [h6b]; rfl), hlog]
    rfl

/-- Re-delivery of a stale notification whose uuid is already logged: the
stored record still makes the guard fire. -/
theorem handler_second_run_stale (cfg : AppStoreConfig)
    (n : AppStoreNotification) (now2 : Int) (s1 : DbState)
    (rec : PurchaseRecordRow)
    (h1 : optFalsy n.notificationUuid = false)
    (h2 : optFalsy n.notificationType = false)
    (h3 : ¬ notifNt n = "TEST")
    (h4 : n.dataPresent = true)
    (h5 : validate_notification_data cfg n = true)
    (h6 : APP_STORE_IGNORE_TYPES.contains (notifNt n) = false)
    (h7 : (APP_STORE_ACTIVE_TYPES ++ APP_STORE_RETRY_TYPES
      ++ APP_STORE_EXPIRED_TYPES
      ++ APP_STORE_REVOKE_TYPES).contains (notifNt n) = true)
    (h8 : optFalsy (notifOtid n) = false)
    (hrec : get_purchase_record s1 ((notifOtid n).getD "") = some rec)
    (hstale : staleGuard rec.expireDateMs (effectiveExpireOf n) (notifNt n)
      = true)
    (hlog : create_notification_log s1 (mainLogRow n) = (false, s1)) :
    app_store_notification_handler cfg n now2 s1 =
      Except.ok
        ({ code := 0, message := "success", stale := true,
           duplicate := true }, s1) := by
  unfold app_store_notification_handler
  rw [h1, h2]
  simp only [Bool.false_eq_true, if_false]
  unfold notifNt at h3
  rw [if_neg h3, h4, h5]
  simp only [Bool.not_true, Bool.false_eq_true, if_false, if_true]
  unfold notifNt at h6 h7
  rw [if_neg (by rw [h6]; simp), if_neg (by rw [h7]; simp), h8]
  simp only [Bool.false_eq_true, if_false]
  simp only [hrec]
  rw [if_neg (by simp)]
  simp only [Option.bind]
  unfold notifNt at hstale
  rw [if_pos hstale]
  unfold mainLogRow notifNt notifTxid at hlog
  rw [hlog]
  rfl

/-- Re-delivery of a fully-applied notification whose uuid is already
logged and whose state transition has become a fixpoint: no state change,
`duplicate = true`. -/
theorem handler_second_run_main (cfg : AppStoreConfig)
    (n : AppStoreNotification) (now2 : Int) (s1 : DbState)
    (r2 : PurchaseRecordRow)
    (h1 : optFalsy n.notificationUuid = false)
    (h2 : optFalsy n.notificationType = false)
    (h3 : ¬ notifNt n = "TEST")
    (h4 : n.dataPresent = true)
    (h5 : validate_notification_data cfg n = true)
    (h6 : APP_STORE_IGNORE_TYPES.contains (notifNt n) = false)
    (h7 : (APP_STORE_ACTIVE_TYPES ++ APP_STORE_RETRY_TYPES
      ++ APP_STORE_EXPIRED_TYPES
      ++ APP_STORE_REVOKE_TYPES).contains (notifNt n) = true)
    (h8 : optFalsy (notifOtid n) = false)
    (hrec : get_purchase_record s1 ((notifOtid n).getD "") = some r2)
    (hstale : staleGuard r2.expireDateMs (effectiveExpireOf n) (notifNt n)
      = false)
    (hwiden : shouldWiden r2.expireDateMs (effectiveExpireOf n) = false)
    (hfixS : update_purchase_record_status s1 ((notifOtid n).getD "")
      (notifStatus n) (notifStatusExpire n) (notifEnvironment n) = s1)
    (hfixU : update_users_vip_status_by_otid s1 ((notifOtid n).getD "")
      (notifIsVip n) (effectiveExpireOf n) = s1)
    (hfixE : (if !optFalsy (notifTxid n)
        && APP_STORE_TRANSACTION_TYPES.contains (notifNt n) then
        record_purchase_event s1 ((notifTxid n).getD "")
          ((notifOtid n).getD "") (notifNt n) none
      else s1) = s1)
    (hlog : create_notification_log s1 (mainLogRow n) = (false, s1)) :
    app_store_notification_handler cfg n now2 s1 =
      Except.ok
        ({ code := 0, message := "success", duplicate := true,
           notificationType := some (notifNt n),
           isVip := some (notifIsVip n),
           vipExpireMs := effectiveExpireOf n }, s1) := by
  unfold app_store_notification_handler
  rw [h1, h2]
  simp only [Bool.false_eq_true, if_false]
  unfold notifNt at h3
  rw [if_neg h3, h4, h5]
  simp only [Bool.not_true, Bool.false_eq_true, if_false, if_true]
  unfold notifNt at h6 h7
  rw [if_neg (by rw [h6]; simp), if_neg (by rw [h7]; simp), h8]
  simp only [Bool.false_eq_true, if_false]
  simp only [hrec]
  rw [if_neg (by simp)]
  simp only [Option.bind]
  unfold notifNt at hstale
  rw [if_neg (by rw [hstale]; simp)]
  simp only [hwiden, Bool.false_eq_true, if_false]
  unfold notifStatus notifStatusExpire notifNt at hfixS
  rw [hfixS]
  unfold notifIsVip notifNt at hfixU
  rw [hfixU]
  unfold notifTxid notifNt at hfixE
  rw [hfixE]
  unfold mainLogRow notifNt notifTxid at hlog
  rw [hlog]
  rfl

/-- A missing effective expiry never fires the stale guard. -/
theorem staleGuard_none_eff (e : Option Int) (t : String) :
    staleGuard e none t = false := by cases e <;> rfl

/-- A missing effective expiry never widens. -/
theorem shouldWiden_none_eff (e : Option Int) : shouldWiden e none = false := rfl

/-- Widening presupposes a present effective expiry. -/
theorem shouldWiden_some_of_true (e f : Option Int)
    (h : shouldWiden e f = true) : ∃ v, f = some v := by
  cases f with
  | none => simp [shouldWiden] at h
  | some v => exact ⟨v, rfl⟩

/-- Expiry of a status-updated matching row. -/
theorem statusRowUpdate_expire (otid st : String) (se : Option Int)
    (env : Option String) (r : PurchaseRecordRow)
    (hr : r.originalTransactionId = otid) :
    (statusRowUpdate otid st se env r).expireDateMs =
      match se with
      | some v => some v
      | none => r.expireDateMs := by
  unfold statusRowUpdate
  rw [if_pos hr]

/-- Id of a status-updated matching row. -/
theorem statusRowUpdate_otid (otid st : String) (se : Option Int)
    (env : Option String) (r : PurchaseRecordRow) :
    (statusRowUpdate otid st se env r).originalTransactionId
      = r.originalTransactionId := by
  unfold statusRowUpdate
  split <;> rfl

/-- A conditional purchase-event insert leaves purchase records alone. -/
theorem ev_if_records (P : Prop) [Decidable P] (s : DbState)
    (a b c : String) (d : Option String) :
    (if P then record_purchase_event s a b c d else s).purchaseRecords
      = s.purchaseRecords := by
  split
  · exact (event_other_tables s a b c d).1
  · rfl

/-- A conditional purchase-event insert leaves users alone. -/
theorem ev_if_users (P : Prop) [Decidable P] (s : DbState)
    (a b c : String) (d : Option String) :
    (if P then record_purchase_event s a b c d else s).users = s.users := by
  split
  · exact (event_other_tables s a b c d).2.1
  · rfl

/-- A conditional purchase-event insert leaves the notification log alone. -/
theorem ev_if_logs (P : Prop) [Decidable P] (s : DbState)
    (a b c : String) (d : Option String) :
    (if P then record_purchase_event s a b c d else s).notificationLogs
      = s.notificationLogs := by
  split
  · exact (event_other_tables s a b c d).2.2
  · rfl

/-- Logging a notification does not change which record is found. -/
theorem get_log_pres (s : DbState) (row : NotificationLogRow) (T : String) :
    get_purchase_record (create_notification_log s row).2 T
      = get_purchase_record s T := by
  unfold get_purchase_record
  rw [(create_log_other_tables s row).1]

/-- The status update is a no-op on states whose record table it fixes. -/
theorem update_status_fix (s : DbState) (otid st : String) (se : Option Int)
    (env : Option String)
    (h : s.purchaseRecords.map (statusRowUpdate otid st se env)
      = s.purchaseRecords) :
    update_purchase_record_status s otid st se env = s := by
  unfold update_purchase_record_status
  rw [h]

/-- The users VIP update is a no-op on states whose user table it fixes. -/
theorem update_users_fix (s : DbState) (otid : String) (v : Bool)
    (e : Option Int)
    (h : s.users.map (vipRowUpdate otid v e) = s.users) :
    update_users_vip_status_by_otid s otid v e = s := by
  unfold update_users_vip_status_by_otid
  rw [h]

/-- The status-expire argument the handler passes is either the effective
expiry or `none`. -/
theorem notifStatusExpire_cases (n : AppStoreNotification) :
    notifStatusExpire n = effectiveExpireOf n ∨ notifStatusExpire n = none := by
  unfold notifStatusExpire
  split
  · exact Or.inl rfl
  · exact Or.inr rfl

/-- C1 (amended): re-processing a successfully processed notification is a
no-op — for any state `s`, if the handler returns `(r, s1)`, then running it
again (at any later time) returns the same persisted state `s1` together
with `duplicate = true` and `code = 0`; by induction, applying a
notification N ≥ 1 times leaves the state of applying it once. -/
theorem C1_notification_idempotent (cfg : AppStoreConfig)
    (n : AppStoreNotification) (now1 now2 : Int) (s : DbState)
    (r : NotifResponse) (s1 : DbState)
    (h : app_store_notification_handler cfg n now1 s = Except.ok (r, s1)) :
    ∃ r2, app_store_notification_handler cfg n now2 s1 = Except.ok (r2, s1)
      ∧ r2.duplicate = true ∧ r2.code = 0 := by
  unfold app_store_notification_handler at h
  by_cases h1 : optFalsy n.notificationUuid = true
  · rw [if_pos h1] at h; simp at h
  rw [if_neg h1] at h
  have h1f : optFalsy n.notificationUuid = false := Bool.eq_false_iff.mpr h1
  by_cases h2 : optFalsy n.notificationType = true
  · rw [if_pos h2] at h; simp at h
  rw [if_neg h2] at h
  have h2f : optFalsy n.notificationType = false := Bool.eq_false_iff.mpr h2
  by_cases h3 : n.notificationType.getD "" = "TEST"
  · rw [if_pos h3] at h
    simp only [] at h
    rw [Except.ok.injEq, Prod.mk.injEq] at h
    obtain ⟨hr, hs1⟩ := h
    subst hs1
    exact ⟨_, handler_second_run_test cfg n now2 _ h1f h2f h3
      (log_dup _ _ (log_mem_after s (testLogRow n))), rfl, rfl⟩
  rw [if_neg h3] at h
  by_cases h4 : (!n.dataPresent) = true
  · rw [if_pos h4] at h; simp at h
  rw [if_neg h4] at h
  have h4t : n.dataPresent = true := by simpa using h4
  by_cases h5 : (!validate_notification_data cfg n) = true
  · rw [if_pos h5] at h; simp at h
  rw [if_neg h5] at h
  have h5t : validate_notification_data cfg n = true := by simpa using h5
  by_cases h6 : APP_STORE_IGNORE_TYPES.contains (n.notificationType.getD "")
      = true
  · rw [if_pos h6] at h
    simp only [] at h
    rw [Except.ok.injEq, Prod.mk.injEq] at h
    obtain ⟨hr, hs1⟩ := h
    subst hs1
    exact ⟨_, handler_second_run_ignored cfg n now2 _ h1f h2f h3 h4t h5t
      (Or.inl h6) (log_dup _ _ (log_mem_after s (ignoredLogRow n))), rfl, rfl⟩
  rw [if_neg h6] at h
  have h6f : APP_STORE_IGNORE_TYPES.contains (n.notificationType.getD "")
      = false := Bool.eq_false_iff.mpr h6
  by_cases h7 : (!(APP_STORE_ACTIVE_TYPES ++ APP_STORE_RETRY_TYPES
      ++ APP_STORE_EXPIRED_TYPES ++ APP_STORE_REVOKE_TYPES).contains
      (n.notificationType.getD "")) = true
  · rw [if_pos h7] at h
    simp only [] at h
    rw [Except.ok.injEq, Prod.mk.injEq] at h
    obtain ⟨hr, hs1⟩ := h
    subst hs1
    exact ⟨_, handler_second_run_ignored cfg n now2 _ h1f h2f h3 h4t h5t
      (Or.inr ⟨h6f, by simpa using h7⟩)
      (log_dup _ _ (log_mem_after s (ignoredLogRow n))), rfl, rfl⟩
  rw [if_neg h7] at h
  have h7t : (APP_STORE_ACTIVE_TYPES ++ APP_STORE_RETRY_TYPES
      ++ APP_STORE_EXPIRED_TYPES ++ APP_STORE_REVOKE_TYPES).contains
      (n.notificationType.getD "") = true := by
    have h7x := Bool.eq_false_iff.mpr h7
    simp at h7x ⊢
    tauto
  by_cases h8 : optFalsy (notifOtid n) = true
  · rw [if_pos h8] at h; simp at h
  rw [if_neg h8] at h
  have h8f : optFalsy (notifOtid n) = false := Bool.eq_false_iff.mpr h8
  cases hex : get_purchase_record s ((notifOtid n).getD "") with
  | some rec =>
    have hrotid : rec.originalTransactionId = (notifOtid n).getD "" := by
      have := List.find?_some hex
      simpa using this
    simp only [hex] at h
    rw [if_neg (by simp)] at h
    simp only [Option.bind] at h
    by_cases h9 : staleGuard rec.expireDateMs (effectiveExpireOf n)
        (n.notificationType.getD "") = true
    · rw [if_pos h9] at h
      rw [Except.ok.injEq, Prod.mk.injEq] at h
      obtain ⟨hr, hs1⟩ := h
      subst hs1
      refine ⟨_, handler_second_run_stale cfg n now2 _ rec h1f h2f h3 h4t h5t
        h6f h7t h8f ?_ h9
        (log_dup _ _ (log_mem_after s (mainLogRow n))), rfl, rfl⟩
      rw [get_log_pres]
      exact hex
    · rw [if_neg h9] at h
      have h9f : staleGuard rec.expireDateMs (effectiveExpireOf n)
          (n.notificationType.getD "") = false := Bool.eq_false_iff.mpr h9
      by_cases hw : shouldWiden rec.expireDateMs (effectiveExpireOf n) = true
      · simp only [hw, if_true] at h
        rw [Except.ok.injEq, Prod.mk.injEq] at h
        obtain ⟨hr, hs1⟩ := h
        subst hs1
        obtain ⟨f0, hF⟩ := shouldWiden_some_of_true _ _ hw
        have hexp : (statusRowUpdate ((notifOtid n).getD "") (notifStatus n)
            (notifStatusExpire n) (notifEnvironment n)
            (if rec.originalTransactionId = (notifOtid n).getD "" then
              { rec with
                  expireDateMs := effectiveExpireOf n
                  status := "active" }
            else rec)).expireDateMs = effectiveExpireOf n := by
          rw [if_pos hrotid]
          rw [statusRowUpdate_expire _ _ _ _ ({ rec with expireDateMs := effectiveExpireOf n, status := "active" }) hrotid]
          rcases notifStatusExpire_cases n with hse | hse <;> rw [hse]
          rw [hF]
        refine ⟨_, handler_second_run_main cfg n now2 _
          (statusRowUpdate ((notifOtid n).getD "") (notifStatus n)
            (notifStatusExpire n) (notifEnvironment n)
            (if rec.originalTransactionId = (notifOtid n).getD "" then
              { rec with
                  expireDateMs := effectiveExpireOf n
                  status := "active" }
            else rec))
          h1f h2f h3 h4t h5t h6f h7t h8f ?_
          (by rw [hexp]; exact staleGuard_self _ _)
          (by rw [hexp]; exact shouldWiden_self _) ?_ ?_ ?_
          (log_dup _ _ (log_mem_after _ (mainLogRow n))), rfl, rfl⟩
        · rw [get_log_pres]
          unfold get_purchase_record
          rw [ev_if_records]
          show (List.map _ (List.map _ s.purchaseRecords)).find? _ = _
          rw [find?_map_pres _ _ (statusRowUpdate_pres_otid _ _ _ _ _)]
          rw [find?_map_pres _ _ (renewRow_pres_otid _ _ _)]
          unfold get_purchase_record at hex
          rw [hex]
          rfl
        · apply update_status_fix
          rw [(create_log_other_tables _ _).1, ev_if_records]
          exact map_idem _ (statusRowUpdate_idem _ _ _ _) _
        · apply update_users_fix
          rw [(create_log_other_tables _ _).2.1, ev_if_users]
          exact map_idem _ (vipRowUpdate_idem _ _ _) _
        · split
          · next hevc =>
            apply event_dup
            rw [(create_log_other_tables _ _).2.2.1]
            split
            · exact event_mem_after _ _ _ _ _
            · next hnot => exact absurd hevc hnot
          · rfl
      · rw [if_neg hw] at h
        have hwf : shouldWiden rec.expireDateMs (effectiveExpireOf n) = false
          := Bool.eq_false_iff.mpr hw
        rw [Except.ok.injEq, Prod.mk.injEq] at h
        obtain ⟨hr, hs1⟩ := h
        subst hs1
        have hexp : (statusRowUpdate ((notifOtid n).getD "") (notifStatus n)
            (notifStatusExpire n) (notifEnvironment n) rec).expireDateMs
            = effectiveExpireOf n
            ∨ (statusRowUpdate ((notifOtid n).getD "") (notifStatus n)
              (notifStatusExpire n) (notifEnvironment n) rec).expireDateMs
              = rec.expireDateMs := by
          rw [statusRowUpdate_expire _ _ _ _ _ hrotid]
          rcases notifStatusExpire_cases n with hse | hse <;> rw [hse]
          · cases hF : effectiveExpireOf n
            · exact Or.inr rfl
            · exact Or.inl rfl
          · exact Or.inr rfl
        have hstale2 : staleGuard (statusRowUpdate ((notifOtid n).getD "")
            (notifStatus n) (notifStatusExpire n) (notifEnvironment n)
            rec).expireDateMs (effectiveExpireOf n)
            (n.notificationType.getD "") = false := by
          rcases hexp with hA | hB
          · rw [hA]
            exact staleGuard_self _ _
          · rw [hB]
            exact h9f
        have hwiden2 : shouldWiden (statusRowUpdate ((notifOtid n).getD "")
            (notifStatus n) (notifStatusExpire n) (notifEnvironment n)
            rec).expireDateMs (effectiveExpireOf n) = false := by
          rcases hexp with hA | hB
          · rw [hA]
            exact shouldWiden_self _
          · rw [hB]
            exact hwf
        refine ⟨_, handler_second_run_main cfg n now2 _
          (statusRowUpdate ((notifOtid n).getD "") (notifStatus n)
            (notifStatusExpire n) (notifEnvironment n) rec)
          h1f h2f h3 h4t h5t
          h6f h7t h8f ?_ hstale2 hwiden2 ?_ ?_ ?_
          (log_dup _ _ (log_mem_after _ (mainLogRow n))), rfl, rfl⟩
        · rw [get_log_pres]
          unfold get_purchase_record
          rw [ev_if_records]
          show (List.map _ s.purchaseRecords).find? _ = _
          rw [find?_map_pres _ _ (statusRowUpdate_pres_otid _ _ _ _ _)]
          unfold get_purchase_record at hex
          rw [hex]
          rfl
        · apply update_status_fix
          rw [(create_log_other_tables _ _).1, ev_if_records]
          exact map_idem _ (statusRowUpdate_idem _ _ _ _) _
        · apply update_users_fix
          rw [(create_log_other_tables _ _).2.1, ev_if_users]
          exact map_idem _ (vipRowUpdate_idem _ _ _) _
        · split
          · next hevc =>
            apply event_dup
            rw [(create_log_other_tables _ _).2.2.1]
            split
            · exact event_mem_after _ _ _ _ _
            · next hnot => exact absurd hevc hnot
          · rfl
  | none =>
    simp only [hex] at h
    by_cases hpid : optFalsy
        ((n.transactionInfo.map TransactionInfo.productId).getD none) = true
    · rw [if_pos (by simp [hpid])] at h
      simp at h
    · rw [if_neg (by simp [hpid])] at h
      rw [get_after_create s ((notifOtid n).getD "") _ _ _ _ _ hex] at h
      simp only [Option.bind] at h
      rw [if_neg (by rw [staleGuard_self]; simp)] at h
      simp only [shouldWiden_self, Bool.false_eq_true, if_false] at h
      rw [Except.ok.injEq, Prod.mk.injEq] at h
      obtain ⟨hr, hs1⟩ := h
      subst hs1
      have hexp : ∀ rc : PurchaseRecordRow,
          rc.originalTransactionId = (notifOtid n).getD "" →
          rc.expireDateMs = effectiveExpireOf n →
          (statusRowUpdate ((notifOtid n).getD "") (notifStatus n)
            (notifStatusExpire n) (notifEnvironment n) rc).expireDateMs
            = effectiveExpireOf n := by
        intro rc hro hre
        rw [statusRowUpdate_expire _ _ _ _ _ hro]
        rcases notifStatusExpire_cases n with hse | hse <;> rw [hse]
        · cases hF : effectiveExpireOf n
          · rw [hF] at hre
            exact hre
          · rfl
        · exact hre
      refine ⟨_, handler_second_run_main cfg n now2 _
        (statusRowUpdate ((notifOtid n).getD "") (notifStatus n)
          (notifStatusExpire n) (notifEnvironment n)
          { originalTransactionId := (notifOtid n).getD "",
            productId :=
              (((n.transactionInfo.map TransactionInfo.productId).getD
                none).getD ""),
            purchaseDateMs :=
              (((n.transactionInfo.map TransactionInfo.purchaseDateMs).getD
                none).getD now1),
            expireDateMs := effectiveExpireOf n,
            status := notifStatus n,
            environment := (if optFalsy (notifEnvironment n) then
              "production" else (notifEnvironment n).getD ""),
            deviceCount := 0 })
        h1f h2f h3 h4t h5t h6f h7t h8f ?_
        (by rw [hexp _ rfl rfl]; exact staleGuard_self _ _)
        (by rw [hexp _ rfl rfl]; exact shouldWiden_self _) ?_ ?_ ?_
        (log_dup _ _ (log_mem_after _ (mainLogRow n))), rfl, rfl⟩
      · rw [get_log_pres]
        unfold get_purchase_record
        rw [ev_if_records]
        show (List.map _ ((create_purchase_record s _ _ _ _ _
          _).purchaseRecords)).find? _ = _
        rw [find?_map_pres _ _ (statusRowUpdate_pres_otid _ _ _ _ _)]
        unfold get_purchase_record at hex
        simp only [create_purchase_record, List.find?_append, hex]
        simp [notifStatus, notifStatusExpire, notifNt]
      · apply update_status_fix
        rw [(create_log_other_tables _ _).1, ev_if_records]
        exact map_idem _ (statusRowUpdate_idem _ _ _ _) _
      · apply update_users_fix
        rw [(create_log_other_tables _ _).2.1, ev_if_users]
        exact map_idem _ (vipRowUpdate_idem _ _ _) _
      · split
        · next hevc =>
          apply event_dup
          rw [(create_log_other_tables _ _).2.2.1]
          split
          · exact event_mem_after _ _ _ _ _
          · next hnot => exact absurd hevc hnot
        · rfl

/-- A purchase record with expiry 100, used for the C1 counterexample. -/
def c1record : PurchaseRecordRow :=
  { originalTransactionId := "2000000555", productId := "com.test.sub",
    purchaseDateMs := 1000, expireDateMs := some 100, status := "active",
    environment := "Production", deviceCount := 1 }

/-- A state whose notification log ALREADY holds `uuid-1`. -/
def c1state : DbState :=
  { users := [{ deviceUuid := "D", originalTransactionId := some "2000000555",
                isVip := true, vipExpireMs := some 100 }]
    purchaseRecords := [c1record]
    deviceBindings := []
    transactionLogs := []
    notificationLogs := [{ notificationUuid := "uuid-1",
                           notificationType := some "DID_RENEW",
                           subtype := none,
                           originalTransactionId := some "2000000555",
                           transactionId := some "tx-9",
                           environment := some "Production",
                           signedPayload := "sp" }]
    purchaseEvents := [] }

/-- A `DID_RENEW` carrying uuid `uuid-1` and expiry 200. -/
def c1notif : AppStoreNotification :=
  { notificationType := some "DID_RENEW", subtype := none,
    notificationUuid := some "uuid-1", dataPresent := true,
    bundleId := some "zhangpei.com.LanguageFlow",
    appAppleId := some "6755928466", dataEnvironment := some "Production",
    transactionInfo := some
      { originalTransactionId := some "2000000555",
        transactionId := some "tx-9", productId := some "com.test.sub",
        purchaseDateMs := some 1000, expiresDateMs := some 200,
        environment := "Production" }
    renewalInfo := none
    signedPayload := "sp" }

/-- C1 counterexample to the claim as stated: the duplicate check happens
only at the final log insert, after the mutations.  On a state whose log
already holds the incoming `notificationUUID`, a `DID_RENEW` with a wider
expiry still rewrites the purchase record and inserts a purchase event,
even though the response says `duplicate = true` with `code = 0`. -/
theorem C1_counterexample :
    ((app_store_notification_handler c5cfg c1notif 0 c1state).toOption.map
      (fun p => (p.1.duplicate, p.1.code,
        decide (p.2.purchaseRecords = c1state.purchaseRecords),
        decide (p.2.purchaseEvents = c1state.purchaseEvents))))
      = some (true, 0, false, false) := by decide

/-- A `TEST` notification with the already-logged uuid `uuid-1`. -/
def c1test : AppStoreNotification :=
  { notificationType := some "TEST", subtype := none,
    notificationUuid := some "uuid-1", dataPresent := false,
    bundleId := none, appAppleId := none, dataEnvironment := none,
    transactionInfo := none, renewalInfo := none, signedPayload := "sp" }

/-- Witness for C1: a concrete run whose log already holds the uuid is a
fixpoint, and the theorem yields the duplicate response on the re-run. -/
theorem C1_notification_idempotent_witness :
    ∃ r2, app_store_notification_handler c5cfg c1test 0 c1state
        = Except.ok (r2, c1state) ∧ r2.duplicate = true ∧ r2.code = 0 :=
  C1_notification_idempotent c5cfg c1test 0 0 c1state
    { code := 0, message := "success", test := true, duplicate := true }
    c1state (by rfl)

/-- A raw transcription segment as whisperx returns it: optional `text`,
`start` and `end` values (`stop` models the Python key `end`). -/
structure RawSeg where
  text : Option String
  start : Option ℚ
  stop : Option ℚ
deriving DecidableEq

/-- Python `x or d` on an optional float: `None` and `0.0` are falsy. -/
def orFloat (o : Option ℚ) (d : ℚ) : ℚ :=
  match o with
  | none => d
  | some v => if v = 0 then d else v

/-- Python `x or ''` on an optional string: `None` and `''` both yield
`''`. -/
def orText (o : Option String) : String :=
  match o with
  | none => ""
  | some t => t

/-- One entry of the whisperx payload (`whisperx_service.py` lines 152–162):
`start = max(0.0, start)`, `end = max(start, end)` with `or`-defaults. -/
structure PayloadSeg where
  text : String
  start : ℚ
  stop : ℚ
deriving DecidableEq

/-- The payload loop of `transcribe_audio` (`whisperx_service.py` lines
152–162). -/
def whisperx_payload (segs : List RawSeg) : List PayloadSeg :=
  segs.map fun s =>
    let start := orFloat s.start 0
    let e := orFloat s.stop start
    { text := orText s.text, start := max 0 start, stop := max start e }

/-- A persisted VOA segment object `{id, start, end, text, translation}`. -/
structure VoaSeg where
  id : Nat
  start : ℚ
  stop : ℚ
  text : String
  translation : String
deriving DecidableEq

/-- The two enumeration loops of `VoaProcessor.process_podcast` fused into
one indexed pass (lines 256–257 assign
`translations[i] if i < len(translations) else ''`, lines 303–306 copy each
segment and set `id = i + 1`); both loops run over the same list in the
same order. -/
def segments_with_id_go (ts : List String) : Nat → List PayloadSeg → List VoaSeg
  | _, [] => []
  | i, sg :: rest =>
    { id := i + 1, start := sg.start, stop := sg.stop, text := sg.text,
      translation := if i < ts.length then ts.getD i "" else "" }
      :: segments_with_id_go ts (i + 1) rest

/-- The segment array `process_podcast` persists for a transcription result
and its translations. -/
def voa_persisted (raws : List RawSeg) (ts : List String) : List VoaSeg :=
  segments_with_id_go ts 0 (whisperx_payload raws)

/-- `segments_with_id_go` preserves the length. -/
theorem segments_with_id_go_length (ts : List String) (i : Nat)
    (segs : List PayloadSeg) :
    (segments_with_id_go ts i segs).length = segs.length := by
  induction segs generalizing i with
  | nil => rfl
  | cons a t ih =>
    simp only [segments_with_id_go, List.length_cons, ih]

/-- Element `j` of `segments_with_id_go` starting at index `i`. -/
theorem segments_with_id_go_get (ts : List String) (segs : List PayloadSeg)
    (i j : Nat) (hj : j < segs.length)
    (hj2 : j < (segments_with_id_go ts i segs).length) :
    (segments_with_id_go ts i segs).get ⟨j, hj2⟩ =
      { id := i + j + 1, start := (segs.get ⟨j, hj⟩).start,
        stop := (segs.get ⟨j, hj⟩).stop, text := (segs.get ⟨j, hj⟩).text,
        translation := if i + j < ts.length then ts.getD (i + j) "" else "" } := by
  induction segs generalizing i j with
  | nil => exact absurd hj (by simp)
  | cons a t ih =>
    cases j with
    | zero => rfl
    | succ j' =>
      have hj' : j' < t.length := by simpa using hj
      have hj2' : j' < (segments_with_id_go ts (i + 1) t).length := by
        rw [segments_with_id_go_length]
        exact hj'
      have := ih (i + 1) j' hj' hj2'
      simp only [segments_with_id_go, List.get_cons_succ]
      rw [this]
      have harith : i + 1 + j' = i + (j' + 1) := by omega
      simp only [harith]

/-- C4 (amended): every persisted VOA segment array pairs element `i` with
translation `i` (empty past the translated prefix), has 1-BASED contiguous
ids — `segments[i].id = i + 1`, not `i` — a non-negative `start`, and
`start ≤ end` whenever the raw whisperx start is non-negative (in
particular whenever it is absent). -/
theorem C4_segment_ids_one_based (raws : List RawSeg) (ts : List String)
    (i : Nat) (hi : i < (voa_persisted raws ts).length) :
    ∃ hr : i < raws.length,
      ((voa_persisted raws ts).get ⟨i, hi⟩).id = i + 1
      ∧ 0 ≤ ((voa_persisted raws ts).get ⟨i, hi⟩).start
      ∧ (0 ≤ orFloat ((raws.get ⟨i, hr⟩).start) 0 →
          ((voa_persisted raws ts).get ⟨i, hi⟩).start
            ≤ ((voa_persisted raws ts).get ⟨i, hi⟩).stop)
      ∧ ((voa_persisted raws ts).get ⟨i, hi⟩).translation
          = (if i < ts.length then ts.getD i "" else "") := by
  have hlenp : (whisperx_payload raws).length = raws.length := by
    simp [whisperx_payload]
  have hlen : (voa_persisted raws ts).length = raws.length := by
    unfold voa_persisted
    rw [segments_with_id_go_length, hlenp]
  have hr : i < raws.length := by
    have h2 := hi
    rw [hlen] at h2
    exact h2
  have hp : i < (whisperx_payload raws).length := by
    rw [hlenp]
    exact hr
  refine ⟨hr, ?_⟩
  have hgd := segments_with_id_go_get ts (whisperx_payload raws) 0 i hp hi
  simp only [voa_persisted] at hgd ⊢
  rw [hgd]
  simp only [List.get_eq_getElem, whisperx_payload, List.getElem_map]
  refine ⟨by simp, le_max_left _ _, ?_, by simp⟩
  intro h
  rw [max_eq_right h]
  exact le_max_left _ _

/-- A one-element transcription for the C4 theorems. -/
def c4raws : List RawSeg := [{ text := some "hi", start := none, stop := none }]

/-- Its translations. -/
def c4ts : List String := ["你好"]

/-- C4 counterexample: the persisted ids are 1-based — `process_podcast`
sets `segment['id'] = i + 1` — so a one-segment episode persists id 1,
refuting the claimed 0-based identity `segments[i].id == i`. -/
theorem C4_counterexample :
    ((voa_persisted c4raws c4ts).map VoaSeg.id = [1])
    ∧ ¬ ((voa_persisted c4raws c4ts).map VoaSeg.id = [0]) := by decide

/-- Witness for C4 at the concrete one-segment input. -/
theorem C4_segment_ids_one_based_witness :
    0 < (voa_persisted c4raws c4ts).length ∧
    ∃ hr : 0 < c4raws.length,
      ((voa_persisted c4raws c4ts).get ⟨0, by decide⟩).id = 0 + 1
      ∧ 0 ≤ ((voa_persisted c4raws c4ts).get ⟨0, by decide⟩).start
      ∧ (0 ≤ orFloat ((c4raws.get ⟨0, hr⟩).start) 0 →
          ((voa_persisted c4raws c4ts).get ⟨0, by decide⟩).start
            ≤ ((voa_persisted c4raws c4ts).get ⟨0, by decide⟩).stop)
      ∧ ((voa_persisted c4raws c4ts).get ⟨0, by decide⟩).translation
          = (if 0 < c4ts.length then c4ts.getD 0 "" else "") :=
  ⟨by decide, C4_segment_ids_one_based c4raws c4ts 0 (by decide)⟩

/-- A decoded JWS payload dictionary: both camelCase and snake_case
spellings of each key, as `AppleReceiptValidator.parse_transaction` reads
them (`apple_validator.py` lines 86–110). -/
structure JwsPayload where
  originalTransactionId : Option String
  original_transaction_id : Option String
  transactionId : Option String
  transaction_id : Option String
  productId : Option String
  product_id : Option String
  purchaseDate : Option Int
  purchase_date : Option Int
  expiresDate : Option Int
  expires_date : Option Int
  environment : Option String
deriving DecidableEq

/-- The dictionary `parse_transaction` returns. -/
structure ParsedTransaction where
  originalTransactionId : Option String
  transactionId : Option String
  productId : Option String
  purchaseDate : Option Int
  expiresDate : Option Int
  environment : String
deriving DecidableEq

/-- Python `a or b` on optional numbers (`0` counts as falsy). -/
def orMs (a b : Option Int) : Option Int :=
  match a with
  | none => b
  | some v => if v = 0 then b else some v

/-- `AppleReceiptValidator.parse_transaction` (lines 86–110): camelCase `or`
snake_case for each key; `environment` defaults to `"Production"` when the
key is missing. -/
def parse_transaction (p : JwsPayload) : ParsedTransaction :=
  { originalTransactionId := orStr p.originalTransactionId p.original_transaction_id,
    transactionId := orStr p.transactionId p.transaction_id,
    productId := orStr p.productId p.product_id,
    purchaseDate := orMs p.purchaseDate p.purchase_date,
    expiresDate := orMs p.expiresDate p.expires_date,
    environment := p.environment.getD "Production" }

/-- A JWS token, with the outcome of each syntactic and cryptographic check
abstracted into a boolean (the cryptography library calls are opaque to
this model; each flag records whether the corresponding call succeeds):
`parts3` — the token splits into three dot-separated parts; `jsonOk` — the
header/payload parts decode as base64url JSON; `fallbackDecodes` — the
non-JWS base64/JSON fallback of `decode_jws` succeeds; `chainPresent` — a
non-empty `x5c` header; `chainTimeValid` — every certificate valid at the
current time; `chainLinksValid` — each certificate signed by its successor;
`rootTrusted` — the last certificate chains to a configured Apple root;
`alg` — the header algorithm; `keyMatchesAlg` — the leaf public key type
matches the algorithm family; `sigLenOk` — even ECDSA signature length;
`signatureValid` — the leaf public key verifies the signature over the
signing input. -/
structure JwsToken where
  parts3 : Bool
  jsonOk : Bool
  fallbackDecodes : Bool
  chainPresent : Bool
  chainTimeValid : Bool
  chainLinksValid : Bool
  rootTrusted : Bool
  alg : Option String
  keyMatchesAlg : Bool
  sigLenOk : Bool
  signatureValid : Bool
  payload : JwsPayload
deriving DecidableEq

/-- `AppleReceiptValidator.decode_jws` (lines 43–84): three-part tokens
decode their payload part; otherwise the base64/JSON fallback is tried.
No signature or chain is touched. -/
def decode_jws (t : JwsToken) : Except String JwsPayload :=
  if t.parts3 then
    if t.jsonOk then Except.ok t.payload
    else Except.error "Failed to decode JWS payload"
  else if t.fallbackDecodes then Except.ok t.payload
  else Except.error "Invalid JWS token format"

/-- `AppleReceiptValidator.verify_and_parse` (lines 128–148): decode, parse,
and require `originalTransactionId`/`productId` — explicitly NO signature
verification (its own docstring says so). -/
def verify_and_parse (t : JwsToken) : Except String ParsedTransaction :=
  match decode_jws t with
  | Except.error e => Except.error e
  | Except.ok p =>
    let ti := parse_transaction p
    if optFalsy ti.originalTransactionId then
      Except.error "Missing originalTransactionId"
    else if optFalsy ti.productId then Except.error "Missing productId"
    else Except.ok ti

/-- The algorithms `_hash_for_alg` accepts (lines 332–344). -/
def JWS_ALGS : List String :=
  ["ES256", "ES384", "ES512", "RS256", "RS384", "RS512"]

/-- Among the accepted algorithms, those starting with `"ES"`. -/
def JWS_ES_ALGS : List String := ["ES256", "ES384", "ES512"]

/-- `AppleJWSVerifier._verify_jws_signature` (lines 300–330): requires a
truthy `alg`, a supported algorithm, a key of the matching type, an even
ECDSA signature length, and a verifying signature. -/
def verify_jws_signature (t : JwsToken) : Except String Unit :=
  if optFalsy t.alg then Except.error "Missing JWS alg header"
  else if !(JWS_ALGS.contains (t.alg.getD "")) then
    Except.error ("Unsupported JWS alg: " ++ t.alg.getD "")
  else if JWS_ES_ALGS.contains (t.alg.getD "") then
    if !t.keyMatchesAlg then
      Except.error "Unexpected public key type for ES algorithm"
    else if !t.sigLenOk then Except.error "Invalid ECDSA signature length"
    else if !t.signatureValid then Except.error "Invalid JWS signature"
    else Except.ok ()
  else
    if !t.keyMatchesAlg then
      Except.error "Unexpected public key type for RS algorithm"
    else if !t.signatureValid then Except.error "Invalid JWS signature"
    else Except.ok ()

/-- `AppleJWSVerifier.verify_and_decode` (lines 163–171) together with
`_verify_certificate_chain` (lines 202–228): format, chain presence, time
validity, chain links, then root trust — skipped with a warning when no
root is configured and `require_trust` is false — and finally the JWS
signature against the leaf public key. -/
def verify_and_decode (rootsConfigured requireTrust : Bool) (t : JwsToken) :
    Except String JwsPayload :=
  if !t.parts3 then Except.error "Invalid JWS format"
  else if !t.jsonOk then Except.error "Invalid JWS JSON payload"
  else if !t.chainPresent then
    Except.error "Missing x5c certificate chain in JWS header"
  else if !t.chainTimeValid then
    Except.error "Certificate is not valid at current time"
  else if !t.chainLinksValid then Except.error "Certificate issuer mismatch"
  else if rootsConfigured then
    if !t.rootTrusted then Except.error "Certificate chain is not trusted"
    else match verify_jws_signature t with
      | Except.error e => Except.error e
      | Except.ok _ => Except.ok t.payload
  else if requireTrust then
    Except.error "Apple root certificate not configured"
  else match verify_jws_signature t with
    | Except.error e => Except.error e
    | Except.ok _ => Except.ok t.payload

/-- `_require_trust` (`payment_api.py` lines 43–44):
`SERVER_ENV.lower() == "production"`. -/
def require_trust (serverEnv : String) : Bool := pyLower serverEnv = "production"

/-- Step 1 of `verify_purchase_handler` (`payment_api.py` lines 106–116):
full verification via `AppleJWSVerifier` only when `_require_trust()`;
otherwise the parse-only `verify_and_parse`. -/
def verify_purchase_parse_step (serverEnv : String) (rootsConfigured : Bool)
    (t : JwsToken) : Except String ParsedTransaction :=
  if require_trust serverEnv then
    match verify_and_decode rootsConfigured true t with
    | Except.error e => Except.error e
    | Except.ok p =>
      let ti := parse_transaction p
      if optFalsy ti.originalTransactionId then
        Except.error "Missing originalTransactionId"
      else if optFalsy ti.productId then Except.error "Missing productId"
      else Except.ok ti
  else verify_and_parse t

/-- A successful signature check implies the signature flag. -/
theorem verify_jws_signature_ok_sig (t : JwsToken) (u : Unit)
    (h : verify_jws_signature t = Except.ok u) : t.signatureValid = true := by
  by_cases hsig : t.signatureValid = true
  · exact hsig
  exfalso
  have hf : t.signatureValid = false := Bool.eq_false_iff.mpr hsig
  unfold verify_jws_signature at h
  rw [hf] at h
  by_cases h1 : optFalsy t.alg = true
  · rw [if_pos h1] at h
    simp at h
  rw [if_neg h1] at h
  by_cases h2 : (!(JWS_ALGS.contains (t.alg.getD ""))) = true
  · rw [if_pos h2] at h
    simp at h
  rw [if_neg h2] at h
  by_cases h3 : JWS_ES_ALGS.contains (t.alg.getD "") = true
  · rw [if_pos h3] at h
    by_cases h4 : (!t.keyMatchesAlg) = true
    · rw [if_pos h4] at h
      simp at h
    rw [if_neg h4] at h
    by_cases h5 : (!t.sigLenOk) = true
    · rw [if_pos h5] at h
      simp at h
    rw [if_neg h5] at h
    simp at h
  · rw [if_neg h3] at h
    by_cases h4 : (!t.keyMatchesAlg) = true
    · rw [if_pos h4] at h
      simp at h
    rw [if_neg h4] at h
    simp at h

/-- The full verifier never returns a payload for an invalid signature. -/
theorem verify_and_decode_ok_sig (rootsConfigured requireTrust : Bool)
    (t : JwsToken) (p : JwsPayload)
    (h : verify_and_decode rootsConfigured requireTrust t = Except.ok p) :
    t.signatureValid = true := by
  unfold verify_and_decode at h
  by_cases h1 : (!t.parts3) = true
  · rw [if_pos h1] at h
    simp at h
  rw [if_neg h1] at h
  by_cases h2 : (!t.jsonOk) = true
  · rw [if_pos h2] at h
    simp at h
  rw [if_neg h2] at h
  by_cases h3 : (!t.chainPresent) = true
  · rw [if_pos h3] at h
    simp at h
  rw [if_neg h3] at h
  by_cases h4 : (!t.chainTimeValid) = true
  · rw [if_pos h4] at h
    simp at h
  rw [if_neg h4] at h
  by_cases h5 : (!t.chainLinksValid) = true
  · rw [if_pos h5] at h
    simp at h
  rw [if_neg h5] at h
  by_cases h6 : rootsConfigured = true
  · rw [if_pos h6] at h
    by_cases h7 : (!t.rootTrusted) = true
    · rw [if_pos h7] at h
      simp at h
    rw [if_neg h7] at h
    cases hs : verify_jws_signature t with
    | error e =>
      rw [hs] at h
      simp at h
    | ok u => exact verify_jws_signature_ok_sig t u hs
  · rw [if_neg h6] at h
    by_cases h8 : requireTrust = true
    · rw [if_pos h8] at h
      simp at h
    rw [if_neg h8] at h
    cases hs : verify_jws_signature t with
    | error e =>
      rw [hs] at h
      simp at h
    | ok u => exact verify_jws_signature_ok_sig t u hs

/-- C6 (amended): the verify-purchase parse step verifies the JWS signature
ONLY in production — there, a token is accepted only if the leaf-key
signature check succeeded; outside production it calls the parse-only
`verify_and_parse`, whose answer is independent of every chain and
signature flag, so an invalid signature is NOT rejected. -/
theorem C6_signature_verification (serverEnv : String) (rootsConfigured : Bool)
    (t : JwsToken) :
    (require_trust serverEnv = true →
      (∃ ti, verify_purchase_parse_step serverEnv rootsConfigured t
        = Except.ok ti) →
      t.signatureValid = true)
    ∧ (require_trust serverEnv = false →
      ∀ (rc2 cp ctv clv rtr km slo sv : Bool) (a : Option String),
        verify_purchase_parse_step serverEnv rc2
          { t with chainPresent := cp
                   chainTimeValid := ctv
                   chainLinksValid := clv
                   rootTrusted := rtr
                   alg := a
                   keyMatchesAlg := km
                   sigLenOk := slo
                   signatureValid := sv }
          = verify_purchase_parse_step serverEnv rootsConfigured t) := by
  constructor
  · intro h1 hex
    obtain ⟨ti, hok⟩ := hex
    unfold verify_purchase_parse_step at hok
    rw [if_pos h1] at hok
    cases hvd : verify_and_decode rootsConfigured true t with
    | error e =>
      rw [hvd] at hok
      simp at hok
    | ok p => exact verify_and_decode_ok_sig _ _ _ _ hvd
  · intro h2 rc2 cp ctv clv rtr km slo sv a
    unfold verify_purchase_parse_step
    rw [if_neg (by rw [h2]; simp), if_neg (by rw [h2]; simp)]
    rfl

/-- A payload with the required transaction fields. -/
def c6payload : JwsPayload :=
  { originalTransactionId := some "2000000555",
    original_transaction_id := none, transactionId := some "tx-9",
    transaction_id := none, productId := some "com.test.sub",
    product_id := none, purchaseDate := some 1000, purchase_date := none,
    expiresDate := some 2000000, expires_date := none,
    environment := some "Sandbox" }

/-- A well-formed token whose signature check FAILS. -/
def c6bad : JwsToken :=
  { parts3 := true, jsonOk := true, fallbackDecodes := false,
    chainPresent := true, chainTimeValid := true, chainLinksValid := true,
    rootTrusted := true, alg := some "ES256", keyMatchesAlg := true,
    sigLenOk := true, signatureValid := false, payload := c6payload }

/-- The same token with a verifying signature. -/
def c6good : JwsToken :=
  { parts3 := true, jsonOk := true, fallbackDecodes := false,
    chainPresent := true, chainTimeValid := true, chainLinksValid := true,
    rootTrusted := true, alg := some "ES256", keyMatchesAlg := true,
    sigLenOk := true, signatureValid := true, payload := c6payload }

/-- C6 counterexample: a token the real verifier rejects for its INVALID
signature is nevertheless accepted by the verify-purchase parse step in a
non-production deployment, because `verify_and_parse` never looks at the
signature — refuting "never skips signature verification". -/
theorem C6_counterexample :
    verify_and_decode true true c6bad = Except.error "Invalid JWS signature"
    ∧ verify_purchase_parse_step "development" true c6bad
        = Except.ok (parse_transaction c6payload) := by
  constructor
  · rfl
  · rfl

/-- Witness for C6 at concrete inputs: the production branch accepts the
valid-signature token, and the development branch ignores every
chain/signature flag. -/
theorem C6_signature_verification_witness :
    (require_trust "production" = true
      ∧ (∃ ti, verify_purchase_parse_step "production" true c6good
          = Except.ok ti)
      ∧ c6good.signatureValid = true)
    ∧ (require_trust "development" = false
      ∧ verify_purchase_parse_step "development" false
          { c6bad with chainPresent := false
                       chainTimeValid := false
                       chainLinksValid := false
                       rootTrusted := false
                       alg := none
                       keyMatchesAlg := false
                       sigLenOk := false
                       signatureValid := false }
          = verify_purchase_parse_step "development" true c6bad) :=
  ⟨⟨rfl, ⟨parse_transaction c6payload, rfl⟩,
    (C6_signature_verification "production" true c6good).1 rfl
      ⟨parse_transaction c6payload, rfl⟩⟩,
   rfl,
   (C6_signature_verification "development" true c6bad).2 rfl false false
     false false false false false false none⟩
